import Mathlib

/-!
Shallow embedding of the attendance-session core of the `qrinstitutions`
repository, together with theorems checking the natural-language
specification against the code.

The embedding translates the JavaScript source into Lean definitions:

* `src/backend/models/Course.js` — IPv4 allowlist matching
  (`ipv4ToInt`, `isIpv4CidrMatch`, `isIpAllowedByAllowlist`),
  policy normalization (`normalizeAttendancePolicy`), signature
  validation (`validateSignatureDataUrl`), the `/verify-attendance`
  handler and the `/mark-attendance` pipeline.
* `src/unnamed/part_002` (qr/session module) — the in-memory session
  store (`generateQRCode`, `getSessionDetails`).
* `src/unnamed/part_005` (course routes) — the strict policy resolver
  used at course creation/update (`buildAttendancePolicy`) and its
  fail-safe wrapper (`mapAttendancePolicy`).
* `src/backend/models/Attendance.js` — the index declarations of the
  Attendance collection.

JavaScript machine integers are modelled as `Int`/`Nat` with explicit
wrapping (`toInt32`, `toUint32`); JavaScript numbers that reach the
modelled code are finite and are modelled as exact decimals (`JsDec`).
External effects (Mongo queries, the HMAC/SHA-256 digest, the haversine
distance) are modelled by explicit state passing and by function
parameters.
-/

/-! ## JavaScript numeric primitives -/

/-- Wrap an integer to the signed 32-bit range, as JavaScript `ToInt32`. -/
def toInt32 (n : Int) : Int :=
  let m := n.emod 4294967296
  if m < 2147483648 then m else m - 4294967296

/-- Wrap an integer to the unsigned 32-bit range, as JavaScript `ToUint32`
(the `>>> 0` idiom). -/
def toUint32 (n : Int) : Int :=
  n.emod 4294967296

/-- Digit value of a decimal digit character. -/
def digitVal (c : Char) : Nat := c.toNat - 48

/-- Value of a list of decimal digits. -/
def digitsToNat (l : List Char) : Nat :=
  l.foldl (fun a c => a * 10 + digitVal c) 0

/-- Hexadecimal digit value. -/
def hexVal (c : Char) : Option Nat :=
  if c.isDigit then some (c.toNat - 48)
  else if 'a' ≤ c ∧ c ≤ 'f' then some (c.toNat - 87)
  else if 'A' ≤ c ∧ c ≤ 'F' then some (c.toNat - 55)
  else none

/-- Value of a list of hexadecimal digits, if all are valid. -/
def hexDigitsToNat (l : List Char) : Option Nat :=
  l.foldl (fun a c => a.bind (fun v => (hexVal c).map (fun d => v * 16 + d))) (some 0)

/-- Exact decimal number `mant / 10 ^ exp`, the value space of the (finite)
JavaScript numbers that reach the modelled code: every such number enters
the system as a decimal literal (JSON field, string, or Mongo `Number`
written from one), and the code performs no arithmetic on them other than
comparisons, so their values are modelled exactly rather than as binary
floating point.  Mathlib's `ℚ` is not used here because its arithmetic is
not kernel-reducible, which would make the development non-evaluable. -/
structure JsDec where
  mant : Int
  exp : Nat
deriving DecidableEq, Repr

namespace JsDec

/-- Embed an integer. -/
def ofInt (n : Int) : JsDec := ⟨n, 0⟩

instance instJsDecOfNat : OfNat JsDec n := ⟨ofInt n⟩

/-- Semantic equality (`a.mant / 10^a.exp = b.mant / 10^b.exp`). -/
def eqv (a b : JsDec) : Bool := a.mant * 10 ^ b.exp = b.mant * 10 ^ a.exp

/-- Semantic `≤`, as the JavaScript `<=` on these values. -/
def le (a b : JsDec) : Bool := a.mant * 10 ^ b.exp ≤ b.mant * 10 ^ a.exp

/-- Semantic `<`, as the JavaScript `<` on these values. -/
def lt (a b : JsDec) : Bool := a.mant * 10 ^ b.exp < b.mant * 10 ^ a.exp

/-- Negation. -/
def neg (a : JsDec) : JsDec := ⟨-a.mant, a.exp⟩

/-- JavaScript `Number.isInteger` on a (finite) modelled number. -/
def isInt (a : JsDec) : Bool := a.mant % (10 ^ a.exp : Int) = 0

/-- The integer value of an integral `JsDec`. -/
def toInt (a : JsDec) : Int := a.mant / (10 ^ a.exp : Int)

/-- Source `Math.min(a, b)` on the modelled (non-`NaN`) numbers. -/
def jsMin (a b : JsDec) : JsDec := if le a b then a else b

/-- Source `Math.max(a, b)` on the modelled (non-`NaN`) numbers. -/
def jsMax (a b : JsDec) : JsDec := if le a b then b else a

end JsDec

/-- Parse the decimal-literal part of a JavaScript number:
digits, optional fraction, optional exponent.  Returns `none` for `NaN`. -/
def jsParseDecimal (cs : List Char) : Option JsDec :=
  let ipart := cs.takeWhile Char.isDigit
  let rest₁ := cs.dropWhile Char.isDigit
  let (fpart, rest₂) :=
    match rest₁ with
    | '.' :: t => (t.takeWhile Char.isDigit, t.dropWhile Char.isDigit)
    | _ => ([], rest₁)
  if ipart.length + fpart.length = 0 then none
  else
    let mantissa : JsDec :=
      ⟨(digitsToNat ipart * 10 ^ fpart.length + digitsToNat fpart : Nat), fpart.length⟩
    match rest₂ with
    | [] => some mantissa
    | 'e' :: t => jsParseExp mantissa t
    | 'E' :: t => jsParseExp mantissa t
    | _ => none
where
  /-- Parse an exponent suffix (optional sign, at least one digit). -/
  jsParseExp (mantissa : JsDec) (t : List Char) : Option JsDec :=
    let (neg, digits) :=
      match t with
      | '-' :: d => (true, d)
      | '+' :: d => (false, d)
      | d => (false, d)
    if digits = [] ∨ ¬ digits.all Char.isDigit then none
    else
      let e := digitsToNat digits
      some (if neg then ⟨mantissa.mant, mantissa.exp + e⟩
            else ⟨mantissa.mant * 10 ^ e, mantissa.exp⟩)

/-- JavaScript `Number(string)` restricted to finite results: `none` stands
for `NaN` and for the non-finite values `±Infinity` (every use in the
modelled code filters those out with `Number.isFinite`/`Number.isInteger`).
Handles whitespace trimming, the empty string (`0`), an optional sign,
decimal literals with fraction/exponent, and hexadecimal literals. -/
def jsNumber (s : String) : Option JsDec :=
  let cs := (s.toList.dropWhile Char.isWhitespace).reverse.dropWhile Char.isWhitespace |>.reverse
  match cs with
  | [] => some 0
  | '0' :: 'x' :: t => if t = [] then none else (hexDigitsToNat t).map (fun n => .ofInt n)
  | '0' :: 'X' :: t => if t = [] then none else (hexDigitsToNat t).map (fun n => .ofInt n)
  | '-' :: t => (jsParseDecimal t).map JsDec.neg
  | '+' :: t => jsParseDecimal t
  | _ => jsParseDecimal cs

/-! ## String helpers mirroring the JavaScript string methods used -/

/-- Split a character list on a separator character (`String.prototype.split`
with a single-character separator: every occurrence separates, empty pieces
are kept). -/
def splitListOn (sep : Char) : List Char → List (List Char)
  | [] => [[]]
  | c :: t =>
    let r := splitListOn sep t
    if c = sep then [] :: r
    else
      match r with
      | h :: t' => (c :: h) :: t'
      | [] => [[c]]

/-- Source `String.prototype.split` with a single-character separator. -/
def jsSplit (sep : Char) (s : String) : List String :=
  (splitListOn sep s.toList).map String.mk

/-- Character-wise lower-casing, as `String.prototype.toLowerCase` on the
ASCII strings handled by the code. -/
def jsToLower (s : String) : String := String.mk (s.toList.map Char.toLower)

/-- Character-wise upper-casing, as `String.prototype.toUpperCase` on the
ASCII strings handled by the code. -/
def jsToUpper (s : String) : String := String.mk (s.toList.map Char.toUpper)

/-- Source `String.prototype.trim`. -/
def jsTrim (s : String) : String :=
  String.mk ((s.toList.dropWhile Char.isWhitespace).reverse.dropWhile Char.isWhitespace |>.reverse)

/-- Source `String.prototype.startsWith`. -/
def jsStartsWith (s pre : String) : Bool := pre.toList.isPrefixOf s.toList

/-- Source `String.prototype.includes` for a single character. -/
def jsIncludesChar (s : String) (c : Char) : Bool := s.toList.contains c

/-- Source `str.length` (the strings handled are ASCII, so UTF-16 length is
character count). -/
def jsLength (s : String) : Nat := s.toList.length

/-- Drop the first `n` characters. -/
def jsDrop (s : String) (n : Nat) : String := String.mk (s.toList.drop n)


/-! ## IPv4 allowlist matching (`src/backend/models/Course.js` 1033–1083) -/

/-- Source `normalizeClientIp(value)`: first comma-separated hop, trimmed,
lower-cased, with a `::ffff:` IPv4-mapped prefix stripped. -/
def normalizeClientIp (value : String) : String :=
  let first := jsToLower (jsTrim ((jsSplit ',' value).headD ""))
  if first = "" then ""
  else if jsStartsWith first "::ffff:" then jsDrop first 7
  else first

/-- Source `ipv4ToInt(ipv4)`: dotted-quad parse with JavaScript `Number` octet
parsing and 32-bit wrap-around arithmetic (`(value << 8) + numeric`,
final `>>> 0`). Returns `none` where the source returns `null`. -/
def ipv4ToInt (ipv4 : String) : Option Nat :=
  let parts := jsSplit '.' ipv4
  if parts.length ≠ 4 then none
  else
    (parts.foldl
      (fun acc part =>
        acc.bind (fun v =>
          match jsNumber part with
          | none => none
          | some q =>
            if q.isInt ∧ 0 ≤ q.toInt ∧ q.toInt ≤ 255 then
              some (toInt32 (toInt32 v * 256) + q.toInt)
            else none))
      (some 0)).map (fun v => (toUint32 v).toNat)

/-- The mask the source computes:
`prefixLength === 0 ? 0 : (0xffffffff << (32 - prefixLength)) >>> 0`,
with JavaScript 32-bit shift semantics. -/
def jsCidrMask (p : Nat) : Nat :=
  if p = 0 then 0
  else (toUint32 (toInt32 (toInt32 4294967295 * 2 ^ (32 - p)))).toNat

/-- Source `isIpv4CidrMatch(ip, cidr)`.  The final `(ipInt & mask) === (baseInt & mask)`
compares the 32-bit AND of the operands; on the unsigned 32-bit values
produced by `ipv4ToInt` this is `Nat.land` equality. -/
def isIpv4CidrMatch (ip cidr : String) : Bool :=
  let parts := jsSplit '/' cidr
  let baseIp := parts.headD ""
  let prefixNum : Option JsDec :=
    match parts[1]? with
    | none => none
    | some r => jsNumber r
  match prefixNum with
  | none => false
  | some q =>
    if q.isInt ∧ 0 ≤ q.toInt ∧ q.toInt ≤ 32 then
      match ipv4ToInt ip, ipv4ToInt baseIp with
      | some ipInt, some baseInt =>
        let mask := jsCidrMask q.toInt.toNat
        ipInt.land mask = baseInt.land mask
      | _, _ => false
    else false

/-- Strict dotted-quad IPv4 recognizer (decimal octets 0–255, no leading
zeros), used to model `net.isIP`.  IPv6 recognition is not modelled: the
allowlist decision below provably does not depend on this value. -/
def isStrictIPv4 (s : String) : Bool :=
  let parts := jsSplit '.' s
  parts.length = 4 ∧ parts.all (fun p =>
    let cs := p.toList
    cs ≠ [] ∧ cs.all Char.isDigit ∧ cs.length ≤ 3 ∧
    (cs.headD '0' ≠ '0' ∨ cs.length = 1) ∧ digitsToNat cs ≤ 255)

/-- Model of Node's `net.isIP` (4 for IPv4, 0 otherwise; the 6-for-IPv6
case is folded into 0, which cannot change the allowlist result). -/
def net_isIP (s : String) : Nat := if isStrictIPv4 s then 4 else 0

/-- Source `isIpAllowedByAllowlist(clientIp, allowlist)`. -/
def isIpAllowedByAllowlist (clientIp : String) (allowlist : List String) : Bool :=
  let ip := normalizeClientIp clientIp
  if ip = "" ∨ allowlist = [] then false
  else allowlist.any (fun entryRaw =>
    let entry := normalizeClientIp entryRaw
    if entry = "" then false
    else if jsIncludesChar entry '/' then isIpv4CidrMatch ip entry
    else if net_isIP ip ≠ 0 ∧ net_isIP entry ≠ 0 ∧ ip = entry then true
    else ip = entry)


/-! ## Name / email normalization (`Course.js` 957–996) -/

/-- Source `normalizeUpper(value)`. -/
def normalizeUpper (value : String) : String := jsToUpper (jsTrim value)

/-- Collapse runs of whitespace to single spaces (`replace(/\s+/g, " ")`);
the boolean records whether the previous character was whitespace (i.e.
the run has already emitted its space). -/
def collapseWhitespace : Bool → List Char → List Char
  | _, [] => []
  | prevSpace, c :: t =>
    if c.isWhitespace then
      if prevSpace then collapseWhitespace true t
      else ' ' :: collapseWhitespace true t
    else c :: collapseWhitespace false t

/-- Source `normalizeName(value)`: trim, collapse whitespace, lower-case. -/
def normalizeName (value : String) : String :=
  jsToLower (String.mk (collapseWhitespace false (jsTrim value).toList))

/-- Source `namesMatch(left, right)`: vacuously true when either side is falsy
(empty), otherwise equality of normalized names. -/
def namesMatch (left right : String) : Bool :=
  if left = "" ∨ right = "" then true
  else normalizeName left = normalizeName right

/-- Source `normalizeEmail(value)`. -/
def normalizeEmail (value : String) : String := jsToLower (jsTrim value)

/-- Source `isValidEmail(value)`: the regex `/^[^\s@]+@[^\s@]+\.[^\s@]+$/`.
A character list matches `[^\s@]+` iff it is non-empty and free of
whitespace and `@`; the whole regex matches iff the string splits as
`local @ rest` with `rest` containing a dot that has such a block on
each side. -/
def isValidEmail (value : String) : Bool :=
  match jsSplit '@' value with
  | [localPart, domain] =>
    let okChars := fun (l : List Char) => l ≠ [] ∧ l.all (fun c => ¬ c.isWhitespace ∧ c ≠ '@')
    okChars localPart.toList ∧
      (List.range domain.toList.length).any (fun i =>
        domain.toList[i]? = some '.' ∧
        okChars (domain.toList.take i) ∧ okChars (domain.toList.drop (i + 1)))
  | _ => false


/-! ## JavaScript-value model for raw policy fields -/

/-- The JavaScript values that can occupy a raw attendance-policy field:
`undefined`, `null`, a boolean, a (finite) number, or a string. -/
inductive JsVal where
  | undef
  | nul
  | bool (b : Bool)
  | num (q : JsDec)
  | str (s : String)
deriving DecidableEq, Repr

/-- Source `normalizeBoolean(value, fallback)` (`Course.js` 982–989 and the
identical copy in the course-routes module).  `String(number)` is only
consulted for membership in the truthy/falsy keyword lists, which a
number renders into exactly when it is `1` or `0`. -/
def normalizeBoolean (value : JsVal) (fallback : Bool) : Bool :=
  match value with
  | .undef => fallback
  | .nul => fallback
  | .str "" => fallback
  | .bool b => b
  | .num q => if q.eqv 1 then true else if q.eqv 0 then false else fallback
  | .str s =>
    let normalized := jsToLower (jsTrim s)
    if normalized = "true" ∨ normalized = "1" ∨ normalized = "yes" ∨ normalized = "on" then true
    else if normalized = "false" ∨ normalized = "0" ∨ normalized = "no" ∨ normalized = "off" then false
    else fallback

/-- Source `toNullableNumber(value)`: `undefined`/`null`/`""` and non-finite
results map to `null`; `Number(true) = 1`, `Number(false) = 0`. -/
def toNullableNumber (value : JsVal) : Option JsDec :=
  match value with
  | .undef => none
  | .nul => none
  | .str "" => none
  | .num q => some q
  | .bool b => some (if b then 1 else 0)
  | .str s => jsNumber s

/-! ## Attendance policy resolution -/

/-- A raw `ipAllowlist` field: `undefined`, a non-array value, or an array
of strings (the schema types the entries as strings). -/
inductive JsStrArr where
  | undef
  | notArray
  | arr (xs : List String)
deriving DecidableEq, Repr

/-- Raw geofence sub-document of a stored or submitted course policy. -/
structure RawGeofence where
  lat : JsVal := .undef
  lng : JsVal := .undef
  radiusMeters : JsVal := .undef
deriving DecidableEq, Repr

/-- Raw course attendance policy (the shape read from the course document
or from a request body), before resolution. -/
structure RawPolicy where
  singleDevicePerDay : JsVal := .undef
  requireSignature : JsVal := .undef
  requireEnrollment : JsVal := .undef
  requireIpAllowlist : JsVal := .undef
  requireGeofence : JsVal := .undef
  ipAllowlist : JsStrArr := .undef
  geofence : Option RawGeofence := none
deriving DecidableEq, Repr

/-- Source `normalizeIpAllowlist(value)`: non-arrays give `[]`; entries are
stringified (they are strings), trimmed, empties dropped, and de-duplicated
preserving first occurrences (`[...new Set(...)]`). -/
def normalizeIpAllowlist (value : JsStrArr) : List String :=
  match value with
  | .arr xs =>
    ((xs.map jsTrim).filter (fun e => e ≠ "")).foldl
      (fun acc e => if acc.contains e then acc else acc ++ [e]) []
  | _ => []

/-- Resolved geofence configuration. -/
structure Geofence where
  lat : Option JsDec
  lng : Option JsDec
  radiusMeters : JsDec
deriving DecidableEq, Repr

/-- Resolved effective attendance policy. -/
structure AttendancePolicy where
  deliveryMode : String
  singleDevicePerDay : Bool
  requireSignature : Bool
  requireEnrollment : Bool
  requireIpAllowlist : Bool
  ipAllowlist : List String
  requireGeofence : Bool
  geofence : Geofence
deriving DecidableEq, Repr

/-- Source `normalizeDeliveryMode(value)` as defined in `Course.js` (unknown or
empty modes fall back to `in_person` without erroring). -/
def normalizeDeliveryMode (value : String) : String :=
  let normalized := jsToLower (jsTrim value)
  if normalized = "" then "in_person"
  else if normalized = "in_person" ∨ normalized = "online" ∨ normalized = "hybrid" then normalized
  else "in_person"

/-- Source `normalizeAttendancePolicy(rawPolicy, deliveryMode)` (`Course.js`
1010–1031): the redemption-time policy resolver.  `reqEnrollDefault`
models the environment-dependent `ATTENDANCE_REQUIRE_ENROLLMENT` default
(`true` unless the env var is the string "false").  A missing or
non-object `rawPolicy` is `none`. -/
def normalizeAttendancePolicy (reqEnrollDefault : Bool) (rawPolicy : Option RawPolicy)
    (deliveryMode : String) : AttendancePolicy :=
  let source := rawPolicy.getD {}
  let geofenceSource := source.geofence.getD {}
  { deliveryMode := deliveryMode
    singleDevicePerDay := normalizeBoolean source.singleDevicePerDay true
    requireSignature := normalizeBoolean source.requireSignature true
    requireEnrollment := normalizeBoolean source.requireEnrollment reqEnrollDefault
    requireIpAllowlist := normalizeBoolean source.requireIpAllowlist false
    ipAllowlist := normalizeIpAllowlist source.ipAllowlist
    requireGeofence := normalizeBoolean source.requireGeofence false
    geofence :=
      { lat := toNullableNumber geofenceSource.lat
        lng := toNullableNumber geofenceSource.lng
        radiusMeters :=
          JsDec.jsMax 10 (JsDec.jsMin 100000
            ((toNullableNumber geofenceSource.radiusMeters).getD 120)) } }

/-- Source `buildAttendancePolicy(rawPolicy, { deliveryMode, fallbackPolicy })`
(course-routes module, lines 133–201): the strict resolver used when a
course is created or updated.  Internally-inconsistent combinations throw
(`Except.error` with the thrown message). -/
def buildAttendancePolicy (reqEnrollDefault : Bool) (rawPolicy : Option RawPolicy)
    (deliveryMode : String) (fallbackPolicy : Option RawPolicy) :
    Except String AttendancePolicy :=
  let source := rawPolicy.getD {}
  let fallback := fallbackPolicy.getD {}
  let singleDevicePerDay :=
    normalizeBoolean source.singleDevicePerDay (normalizeBoolean fallback.singleDevicePerDay true)
  let requireSignature :=
    normalizeBoolean source.requireSignature (normalizeBoolean fallback.requireSignature true)
  let requireEnrollment :=
    normalizeBoolean source.requireEnrollment
      (normalizeBoolean fallback.requireEnrollment reqEnrollDefault)
  let requireIpAllowlist :=
    normalizeBoolean source.requireIpAllowlist (normalizeBoolean fallback.requireIpAllowlist false)
  let ipAllowlist :=
    match source.ipAllowlist with
    | .undef => normalizeIpAllowlist fallback.ipAllowlist
    | v => normalizeIpAllowlist v
  let requireGeofence :=
    normalizeBoolean source.requireGeofence (normalizeBoolean fallback.requireGeofence false)
  let geofenceSource :=
    match source.geofence with
    | some g => g
    | none => fallback.geofence.getD {}
  let geofenceLat := toNullableNumber geofenceSource.lat
  let geofenceLng := toNullableNumber geofenceSource.lng
  let geofenceRadius := (toNullableNumber geofenceSource.radiusMeters).getD 120
  if requireIpAllowlist ∧ ipAllowlist = [] then
    .error "attendancePolicy.ipAllowlist is required when requireIpAllowlist=true"
  else if requireGeofence ∧ (geofenceLat = none ∨ geofenceLng = none) then
    .error "attendancePolicy.geofence.lat/lng are required when requireGeofence=true"
  else if requireGeofence ∧ (geofenceRadius.lt 10 ∨ JsDec.lt 100000 geofenceRadius) then
    .error "attendancePolicy.geofence.radiusMeters must be between 10 and 100000"
  else
    .ok { deliveryMode := deliveryMode
          singleDevicePerDay := singleDevicePerDay
          requireSignature := requireSignature
          requireEnrollment := requireEnrollment
          requireIpAllowlist := requireIpAllowlist
          ipAllowlist := ipAllowlist
          requireGeofence := requireGeofence
          geofence :=
            { lat := geofenceLat, lng := geofenceLng, radiusMeters := geofenceRadius } }

/-- Source `mapAttendancePolicy(rawPolicy, deliveryMode)` (course-routes module,
lines 203–209): the fail-safe read-side wrapper — on a build error it
rebuilds from an empty policy (which never throws). -/
def mapAttendancePolicy (reqEnrollDefault : Bool) (rawPolicy : Option RawPolicy)
    (deliveryMode : String) : Except String AttendancePolicy :=
  match buildAttendancePolicy reqEnrollDefault rawPolicy deliveryMode none with
  | .ok p => .ok p
  | .error _ => buildAttendancePolicy reqEnrollDefault none deliveryMode none

/-! ## Signature validation (`Course.js` 1085–1119) -/

/-- Source `normalizeSignatureDataUrl(value)`. -/
def normalizeSignatureDataUrl (value : Option String) : String :=
  jsTrim (value.getD "")

/-- Byte length of Node's `Buffer.from(s, "base64")` for strings over the
base64 alphabet: decoding consumes 6 bits per character and stops at the
first `=` padding character. -/
def nodeBase64DecodedLength (s : String) : Nat :=
  3 * (s.toList.takeWhile (fun c => c ≠ '=')).length / 4

/-- The base64-alphabet test `/^[A-Za-z0-9+/=]+$/`. -/
def isBase64Alphabet (s : String) : Bool :=
  s.toList ≠ [] ∧ s.toList.all (fun c =>
    ('A' ≤ c ∧ c ≤ 'Z') ∨ ('a' ≤ c ∧ c ≤ 'z') ∨ ('0' ≤ c ∧ c ≤ '9') ∨
    c = '+' ∨ c = '/' ∨ c = '=')

/-- Source `validateSignatureDataUrl(signatureDataUrl)`: `none` means the
signature passed; `some msg` is the rejection message returned by the
source.  (`Buffer.from` on a string never throws, so the `catch` branch
is dead.) -/
def validateSignatureDataUrl (signatureDataUrl : String) : Option String :=
  if signatureDataUrl = "" then some "Signature is required"
  else if ¬ jsStartsWith signatureDataUrl "data:image/png;base64," then
    some "Invalid signature format"
  else if 700000 < jsLength signatureDataUrl then some "Signature image is too large"
  else
    let base64 := ((jsSplit ',' signatureDataUrl)[1]?).getD ""
    if ¬ isBase64Alphabet base64 then some "Invalid signature encoding"
    else
      let len := nodeBase64DecodedLength base64
      if len < 120 ∨ 500000 < len then some "Invalid signature data size"
      else none


/-! ## Session store (`src/unnamed/part_002`, qr module, lines 279–440) -/

/-- One record of the in-memory `activeSessions` map.  Optional fields model
the `|| null` defaults of the issuance context. -/
structure SessionRecord where
  ip : String
  expiresAt : Int
  createdAt : Int
  generatedBy : Option String := none
  generatedByRole : Option String := none
  generatedByName : Option String := none
  institutionId : Option String := none
  courseId : Option String := none
  courseCode : Option String := none
  courseName : Option String := none
  sectionName : Option String := none
deriving DecidableEq, Repr

/-- The `activeSessions` map, as an association list keyed by session id. -/
abbrev SessionMap := List (String × SessionRecord)

/-- Source `Map.prototype.get`. -/
def SessionMap.get (m : SessionMap) (k : String) : Option SessionRecord :=
  (List.find? (fun e => e.1 = k) m).map (·.2)

/-- Source `Map.prototype.delete`. -/
def SessionMap.del (m : SessionMap) (k : String) : SessionMap :=
  List.filter (fun e => e.1 ≠ k) m

/-- Source `Map.prototype.set` (replace or append). -/
def SessionMap.set (m : SessionMap) (k : String) (v : SessionRecord) : SessionMap :=
  if (List.find? (fun e => e.1 = k) m).isSome then
    List.map (fun e => if e.1 = k then (k, v) else e) m
  else m ++ [(k, v)]

/-- Source `getSessionDetails(sessionId)` (lines 395–408): the store `Lookup`.
Takes the current clock and returns the result together with the
(possibly mutated) store — an expired entry is deleted on lookup.
It is a total function: unknown and expired ids produce `none`. -/
def getSessionDetails (now : Int) (sessions : SessionMap) (sessionId : String) :
    Option SessionRecord × SessionMap :=
  match sessions.get sessionId with
  | none => (none, sessions)
  | some session =>
    if session.expiresAt < now then (none, sessions.del sessionId)
    else (some session, sessions)

/-- Source `validateSession(sessionId)` (lines 390–393). -/
def validateSession (now : Int) (sessions : SessionMap) (sessionId : String) :
    Bool × SessionMap :=
  let (session, sessions') := getSessionDetails now sessions sessionId
  (session.isSome, sessions')

/-- Source `QR_CODE_VALIDITY = 1.5 * 60 * 1000` (ms). -/
def QR_CODE_VALIDITY : Int := 90000

/-- Source `CACHE_TIME = 90000` (ms). -/
def CACHE_TIME : Int := 90000

/-- The issuance context passed to `generateQRCode`. -/
structure SessionContext where
  generatedBy : Option String := none
  generatedByRole : Option String := none
  generatedByName : Option String := none
  institutionId : Option String := none
  courseId : Option String := none
  courseCode : Option String := none
  courseName : Option String := none
  sectionName : Option String := none
deriving DecidableEq, Repr

/-- Source `makeCacheKey(ipAddress, sessionContext)` (lines 299–307). -/
def makeCacheKey (ipAddress : String) (ctx : SessionContext) : String :=
  ipAddress ++ "|" ++ ctx.institutionId.getD "" ++ "|" ++ ctx.generatedBy.getD "" ++ "|" ++
    ctx.courseId.getD "" ++ "|" ++ ctx.sectionName.getD ""

/-- The value returned by `generateQRCode`. -/
structure QRResult where
  qrImage : String
  sessionId : String
  expiresIn : Int
  ctxInstitutionId : Option String := none
  ctxCourseId : Option String := none
  ctxCourseCode : Option String := none
  ctxCourseName : Option String := none
  ctxSection : Option String := none
deriving DecidableEq, Repr

/-- One `ipCache` entry. -/
structure CacheEntry where
  data : QRResult
  timestamp : Int
deriving DecidableEq, Repr

/-- The mutable state of the qr module: the two module-level maps. -/
structure QRState where
  activeSessions : SessionMap
  ipCache : List (String × CacheEntry)
deriving DecidableEq

/-- Source `generateQRCode(ipAddress, sessionContext)` (lines 309–388).
`now` models `Date.now()` and `freshHex` models
`crypto.randomBytes(16).toString('hex')` — the 32-hex-character
(128-bit) output of the CSPRNG for this call.  A cached result younger
than `CACHE_TIME` for the same `(ip, institution, issuer, course,
section)` key is returned as-is, without consuming randomness. -/
def generateQRCode (now : Int) (freshHex : String) (st : QRState)
    (ipAddress : String) (ctx : SessionContext) : QRResult × QRState :=
  let cacheKey := makeCacheKey ipAddress ctx
  match List.find? (fun e => e.1 = cacheKey) st.ipCache with
  | some (_, cached) =>
    if now - cached.timestamp < CACHE_TIME then (cached.data, st)
    else generateFresh now freshHex st ipAddress ctx cacheKey
  | none => generateFresh now freshHex st ipAddress ctx cacheKey
where
  /-- The non-cached path: create the session record, register it, cache
  the result. -/
  generateFresh (now : Int) (freshHex : String) (st : QRState)
      (ipAddress : String) (ctx : SessionContext) (cacheKey : String) :
      QRResult × QRState :=
    let sessionId := freshHex
    let sessionRecord : SessionRecord :=
      { ip := ipAddress
        expiresAt := now + QR_CODE_VALIDITY
        createdAt := now
        generatedBy := ctx.generatedBy
        generatedByRole := ctx.generatedByRole
        generatedByName := ctx.generatedByName
        institutionId := ctx.institutionId
        courseId := ctx.courseId
        courseCode := ctx.courseCode
        courseName := ctx.courseName
        sectionName := ctx.sectionName }
    let result : QRResult :=
      { qrImage := "/qrcodes/qr_" ++ toString now ++ ".png"
        sessionId := sessionId
        expiresIn := QR_CODE_VALIDITY
        ctxInstitutionId := sessionRecord.institutionId
        ctxCourseId := sessionRecord.courseId
        ctxCourseCode := sessionRecord.courseCode
        ctxCourseName := sessionRecord.courseName
        ctxSection := sessionRecord.sectionName }
    let cache' :=
      if (List.find? (fun e => e.1 = cacheKey) st.ipCache).isSome then
        List.map (fun e => if e.1 = cacheKey then (cacheKey, ⟨result, now⟩) else e) st.ipCache
      else st.ipCache ++ [(cacheKey, ⟨result, now⟩)]
    (result, { activeSessions := st.activeSessions.set sessionId sessionRecord
               ipCache := cache' })

/-! ## `/verify-attendance` (`Course.js` 869–915) -/

/-- The parsed QR payload `{sessionId, timestamp, hash}`; optional fields
model possibly-missing JSON members. -/
structure VerifyData where
  sessionId : Option String := none
  timestamp : Option Int := none
  hash : Option String := none
deriving DecidableEq, Repr

/-- Outcome of the `/verify-attendance` handler. -/
inductive VerifyResult where
  | badRequest (message : String)
  | redirect (url : String)
deriving DecidableEq, Repr

/-- Truthiness of an optional string (`undefined`/`""` are falsy). -/
def truthyS : Option String → Bool
  | none => false
  | some s => s ≠ ""

/-- Truthiness of an optional number (`undefined`/`0` are falsy). -/
def truthyI : Option Int → Bool
  | none => false
  | some n => n ≠ 0

/-- The `/verify-attendance` handler.  `sha` models the `sha256` helper
(a fixed cryptographic digest, kept abstract), `secret` the
`QR_SECRET_KEY`.  `data?` is `none` when `JSON.parse` /
`decodeURIComponent` failed (the `catch` branch).  Note that the handler
*redirects regardless of the store lookup's outcome*: `sessionDetails`
only contributes the optional `institutionId` query parameter. -/
def verifyAttendance (sha : String → String) (secret : String) (now : Int)
    (sessions : SessionMap) (data? : Option VerifyData) : VerifyResult × SessionMap :=
  match data? with
  | none => (.badRequest "Invalid QR code data", sessions)
  | some data =>
    if ¬ (truthyS data.sessionId ∧ truthyI data.timestamp ∧ truthyS data.hash) then
      (.badRequest "Invalid QR code data: Missing fields", sessions)
    else
      let sid := data.sessionId.getD ""
      let ts := data.timestamp.getD 0
      let expectedHash := sha (sid ++ toString ts ++ secret)
      if data.hash.getD "" ≠ expectedHash then
        (.badRequest "Invalid QR code: Hash mismatch", sessions)
      else if 900000 < now - ts then
        (.badRequest "QR code expired", sessions)
      else
        let (sessionDetails, sessions') := getSessionDetails now sessions sid
        let institutionQuery :=
          match sessionDetails with
          | some r => if truthyS r.institutionId then
              "&institutionId=" ++ r.institutionId.getD "" else ""
          | none => ""
        (.redirect ("/index.html?sessionId=" ++ sid ++ institutionQuery), sessions')

/-! ## Attendance collection indexes (`src/backend/models/Attendance.js` 39–43) -/

/-- A Mongo index declaration: the indexed key paths and whether the index
carries a uniqueness constraint.  Mongoose's `schema.index(keys)` without
a `unique: true` option declares a plain (non-unique) index. -/
structure IndexSpec where
  keys : List String
  unique : Bool
deriving DecidableEq, Repr

/-- The four compound indexes declared on the attendances schema.  None of
the calls passes an options object, so none is unique. -/
def attendanceIndexes : List IndexSpec :=
  [ ⟨["institutionId", "studentEmail", "courseId", "date"], false⟩
  , ⟨["institutionId", "universityRollNo", "courseId", "date"], false⟩
  , ⟨["institutionId", "deviceFingerprint", "courseId", "date"], false⟩
  , ⟨["institutionId", "courseId", "date"], false⟩ ]

/-! ## `/mark-attendance` (`Course.js` 1129–1396) -/

/-- A course document, restricted to the fields the pipeline selects
(`code name section deliveryMode attendancePolicy` plus identity and
activity).  The source's `section` field is named `sectionName` here
(`section` is a Lean keyword). -/
structure CourseDoc where
  id : String
  institutionId : String
  isActive : Bool
  code : String := ""
  name : String := ""
  sectionName : String := ""
  deliveryMode : String := ""
  attendancePolicy : Option RawPolicy := none
deriving DecidableEq, Repr

/-- A CourseEnrollment roster row, restricted to the fields the pipeline
reads. -/
structure EnrollmentRow where
  institutionId : String
  courseId : String
  isActive : Bool
  universityRollNo : String
  fullName : String
  sectionName : String := ""
  classRollNo : String := ""
deriving DecidableEq, Repr

/-- A stored Attendance record (the durable outcome). -/
structure AttendanceRec where
  institutionId : String
  name : String
  studentEmail : String
  universityRollNo : String
  sectionName : String
  classRollNo : String
  date : String
  time : String
  sessionId : String
  courseId : Option String := none
  courseCode : Option String := none
  courseName : Option String := none
  generatedBy : Option String := none
  generatedByRole : Option String := none
  status : String := "present"
  studentId : String
  distanceFromClass : Option JsDec := none
  location : Option (JsDec × JsDec) := none
  deviceFingerprint : String
  signatureDataUrl : Option String := none
  signatureHash : Option String := none
  ipAddress : Option String := none
  userAgent : String := ""
  courseDeliveryMode : String := ""
  attendancePolicySnapshot : AttendancePolicy
deriving DecidableEq, Repr

/-- A User document, restricted to the fields the upsert touches. -/
structure UserRec where
  id : String
  institutionId : String
  universityRollNo : String
  name : String
  email : String
  sectionName : String := ""
  classRollNo : String := ""
deriving DecidableEq, Repr

/-- The data the pipeline can read or write: the non-durable in-memory
session map and the durable Mongo collections. -/
structure Env where
  sessions : SessionMap
  courses : List CourseDoc
  enrollments : List EnrollmentRow
  attendances : List AttendanceRec
  users : List UserRec
deriving DecidableEq, Repr

/-- A submitted location after `Number(...)` coercion of its two fields
(`none` = non-finite). -/
structure RawLocation where
  lat : Option JsDec := none
  lng : Option JsDec := none
deriving DecidableEq, Repr

/-- One `/mark-attendance` request. -/
structure MarkRequest where
  name : Option String := none
  email : Option String := none
  deviceFingerprint : Option String := none
  signatureDataUrl : Option String := none
  sessionId : Option String := none
  location : Option RawLocation := none
  xForwardedFor : Option String := none
  reqIp : String := ""
  userAgent : Option String := none
deriving DecidableEq, Repr

/-- The rejection reasons of the pipeline, one constructor per `res.status`
returned before the commit.  Each corresponds to the literal response
message of the source; the two parametric messages carry the values
interpolated into them, and signature errors carry the message produced by
`validateSignatureDataUrl`. -/
inductive MarkReason where
  /-- 400 `Missing required fields: ...` (middleware `validateAttendance`). -/
  | missingFields (fields : List String)
  /-- 400 `Session ID is required`. -/
  | sessionIdRequired
  /-- 400 `Full name is required`. -/
  | nameRequired
  /-- 400 `Valid email is required`. -/
  | emailInvalid
  /-- 400 `Invalid or expired session. Please scan a fresh QR.` -/
  | invalidSession
  /-- 400 `Session is not linked to a course`. -/
  | noCourseLinked
  /-- 400 `Session is not linked to an institution`. -/
  | noInstitutionLinked
  /-- 404 `Course not found or inactive`. -/
  | courseNotFound
  /-- 400 `Course policy requires IP allowlist but no ranges are configured`. -/
  | allowlistMisconfigured
  /-- 403 `Attendance is only allowed from approved campus network ranges`. -/
  | networkNotAllowed
  /-- 400 `This course requires geolocation. Enable location and try again.` -/
  | locationRequired
  /-- 400 `Course geofence is not configured. Contact your administrator.` -/
  | geofenceNotConfigured
  /-- 400 `You must be within R meters of the class location. Current distance: Dm`. -/
  | outOfRange (radiusMeters distance : JsDec)
  /-- 400, message from `validateSignatureDataUrl`. -/
  | signatureInvalid (message : String)
  /-- 400 `You are not enrolled in this course roster`. -/
  | notEnrolled
  /-- 400 `Student name does not match course enrollment record`. -/
  | nameMismatch
  /-- 400 `You've already marked attendance for this course today`. -/
  | alreadyMarked
  /-- 400 `This device has already been used for this course today`. -/
  | deviceAlreadyUsed
deriving DecidableEq, Repr

/-- Outcome of one `/mark-attendance` request. -/
inductive MarkResult where
  | reject (status : Nat) (reason : MarkReason)
  | success (record : AttendanceRec)
deriving DecidableEq, Repr

/-- The `validateAttendance` middleware (`Course.js` 1129–1141): the
required-field list in source order, keeping fields whose body value is
falsy. -/
def missingRequiredFields (req : MarkRequest) : List String :=
  (if truthyS req.name then [] else ["name"]) ++
  (if truthyS req.email then [] else ["email"]) ++
  (if truthyS req.deviceFingerprint then [] else ["deviceFingerprint"])

/-- Source `getClientIpFromRequest(req)` (`Course.js` 1039–1043). -/
def getClientIpFromRequest (req : MarkRequest) : String :=
  match req.xForwardedFor with
  | some fwd => if fwd ≠ "" then normalizeClientIp fwd else normalizeClientIp req.reqIp
  | none => normalizeClientIp req.reqIp

/-- Trimmed submitted full name (`const submittedName = String(req.body.name || '').trim()`). -/
def submittedNameOf (req : MarkRequest) : String := jsTrim (req.name.getD "")

/-- Normalized submitted e-mail (`normalizeEmail(req.body.email)`). -/
def submittedEmailOf (req : MarkRequest) : String := normalizeEmail (req.email.getD "")

/-- Source `hasValidLocation` (`Course.js` 1149–1159): the request carries a
location object whose two coordinates are finite numbers. -/
def hasValidLocationOf (req : MarkRequest) : Bool :=
  match req.location with
  | some loc => loc.lat.isSome && loc.lng.isSome
  | none => false

/-- The course query of the pipeline (`Course.js` 1209–1213):
`Course.findOne({_id, institutionId, isActive: true})`. -/
def courseLookup (env : Env) (sd : SessionRecord) : Option CourseDoc :=
  List.find? (fun c =>
    c.id = sd.courseId.getD "" ∧ c.institutionId = sd.institutionId.getD "" ∧
    c.isActive) env.courses

/-- The enrollment query of the pipeline (`Course.js` 1286–1296):
match by roll-number = submitted e-mail (as-is or upper-cased) or by
case-insensitive exact full-name (the `^…$/i` regex over the escaped
submitted name). -/
def enrollmentLookup (env : Env) (req : MarkRequest) (sd : SessionRecord) :
    Option EnrollmentRow :=
  List.find? (fun e =>
    e.institutionId = sd.institutionId.getD "" ∧ e.courseId = sd.courseId.getD "" ∧
    e.isActive ∧
    (e.universityRollNo = submittedEmailOf req ∨
      e.universityRollNo = jsToUpper (submittedEmailOf req) ∨
      jsToLower e.fullName = jsToLower (submittedNameOf req))) env.enrollments

/-- Source `enrollment?.section || normalizeUpper(course.section || sessionDetails.section || '') || 'N/A'`
without the enrollment part. -/
def fallbackSection (course : CourseDoc) (sessionDetails : SessionRecord) : String :=
  let base :=
    if course.sectionName ≠ "" then course.sectionName
    else (sessionDetails.sectionName.getD "")
  let upper := normalizeUpper base
  if upper ≠ "" then upper else "N/A"

/-!
The `/mark-attendance` handler (`Course.js` 1129–1396) is embedded as a
chain of phase functions, one per contiguous region of the source
handler, each short-circuiting with the rejection of the first failing
check and otherwise passing control (and the unchanged state) to the
next phase.  External inputs that the handler obtains from its runtime
are explicit parameters threaded through the phases:

* `reqEnrollDefault` — the `ATTENDANCE_REQUIRE_ENROLLMENT` env default;
* `now`, `today`, `nowTime` — the clock (`Date.now()`, the ISO date, the
  formatted time string);
* `dist` — `getDistanceFromLatLngInMeters` (the haversine distance, kept
  abstract as a function of the four coordinates);
* `sigHash` — SHA-256 of the signature payload (kept abstract);
* `freshUserId` — the `_id` Mongo would assign if the user upsert
  inserts.

Values the source computes once near the top of the handler
(`submittedName`, `clientIp`, …) are recomputed by the phases that use
them through the same pure helpers, which preserves the semantics.
-/

/-- Commit (`Course.js` 1312–1391): the canonical identity fields, the
`User.findOneAndUpdate` upsert and `Attendance.create` — the only writes
to durable collections in the pipeline. -/
def markAttendanceCommit (today nowTime : String) (sigHash : String → String)
    (freshUserId : String) (env : Env) (req : MarkRequest) (sd : SessionRecord)
    (course : CourseDoc) (deliveryMode : String) (pol : AttendancePolicy)
    (distance? : Option JsDec) (enrollment? : Option EnrollmentRow) : MarkResult × Env :=
  let institutionId := sd.institutionId.getD ""
  let courseId := sd.courseId.getD ""
  let sessionId := req.sessionId.getD ""
  let deviceFingerprint := req.deviceFingerprint.getD ""
  let submittedName := submittedNameOf req
  let clientIp := getClientIpFromRequest req
  let userAgent := req.userAgent.getD ""
  let normalizedSignatureDataUrl := normalizeSignatureDataUrl req.signatureDataUrl
  let signatureHash :=
    if normalizedSignatureDataUrl ≠ "" then
      some (sigHash (((jsSplit ',' normalizedSignatureDataUrl)[1]?).getD ""))
    else none
  let canonicalStudentId := submittedEmailOf req
  let canonicalName :=
    match enrollment? with
    | some e => if e.fullName ≠ "" then e.fullName else submittedName
    | none => submittedName
  let canonicalSection :=
    match enrollment? with
    | some e => if e.sectionName ≠ "" then e.sectionName else fallbackSection course sd
    | none => fallbackSection course sd
  let canonicalClassRollNo :=
    match enrollment? with
    | some e => if e.classRollNo ≠ "" then e.classRollNo else "N/A"
    | none => "N/A"
  let upsert :=
    match List.find? (fun u =>
        u.institutionId = institutionId ∧
        u.universityRollNo = canonicalStudentId) env.users with
    | some u =>
      let u' := { u with name := canonicalName, email := canonicalStudentId }
      (u', List.map (fun v : UserRec => if v.id = u.id then u' else v) env.users)
    | none =>
      let u' : UserRec :=
        { id := freshUserId
          institutionId := institutionId
          universityRollNo := canonicalStudentId
          name := canonicalName
          email := canonicalStudentId
          sectionName := canonicalSection
          classRollNo := canonicalClassRollNo }
      (u', env.users ++ [u'])
  let attendance : AttendanceRec :=
    { institutionId := institutionId
      name := canonicalName
      studentEmail := canonicalStudentId
      universityRollNo := canonicalStudentId
      sectionName := canonicalSection
      classRollNo := canonicalClassRollNo
      date := today
      time := nowTime
      sessionId := sessionId
      courseId := some courseId
      courseCode := if course.code ≠ "" then some course.code else sd.courseCode
      courseName := if course.name ≠ "" then some course.name else sd.courseName
      generatedBy := sd.generatedBy
      generatedByRole := sd.generatedByRole
      status := "present"
      studentId := upsert.1.id
      distanceFromClass := distance?
      location :=
        if hasValidLocationOf req then
          match req.location with
          | some loc => some (loc.lat.getD 0, loc.lng.getD 0)
          | none => none
        else none
      deviceFingerprint := deviceFingerprint
      signatureDataUrl :=
        if normalizedSignatureDataUrl ≠ "" then some normalizedSignatureDataUrl else none
      signatureHash := signatureHash
      ipAddress := if clientIp ≠ "" then some clientIp else none
      userAgent := userAgent
      courseDeliveryMode := deliveryMode
      attendancePolicySnapshot := pol }
  (.success attendance,
   { env with users := upsert.2, attendances := env.attendances ++ [attendance] })

/-- Identity resolution and duplicate checks (`Course.js` 1286–1341):
the enrollment lookup, the name-mismatch guard, and the two concurrent
duplicate lookups. -/
def markAttendanceIdentity (today nowTime : String) (sigHash : String → String)
    (freshUserId : String) (env : Env) (req : MarkRequest) (sd : SessionRecord)
    (course : CourseDoc) (deliveryMode : String) (pol : AttendancePolicy)
    (distance? : Option JsDec) : MarkResult × Env :=
  let institutionId := sd.institutionId.getD ""
  let courseId := sd.courseId.getD ""
  let canonicalStudentId := submittedEmailOf req
  let enrollment? := enrollmentLookup env req sd
  if enrollment?.isNone && pol.requireEnrollment then (.reject 400 .notEnrolled, env)
  else if (match enrollment? with
      | some enrollment => ! namesMatch enrollment.fullName (submittedNameOf req)
      | none => false) then (.reject 400 .nameMismatch, env)
  else
    let existing := List.find? (fun a =>
      a.institutionId = institutionId ∧ a.date = today ∧ a.courseId = some courseId ∧
      (a.studentEmail = canonicalStudentId ∨ a.universityRollNo = canonicalStudentId))
      env.attendances
    let existingDevice :=
      if pol.singleDevicePerDay then
        List.find? (fun a =>
          a.institutionId = institutionId ∧
          a.deviceFingerprint = req.deviceFingerprint.getD "" ∧
          a.date = today ∧ a.courseId = some courseId) env.attendances
      else none
    if existing.isSome then (.reject 400 .alreadyMarked, env)
    else if pol.singleDevicePerDay && existingDevice.isSome then
      (.reject 400 .deviceAlreadyUsed, env)
    else markAttendanceCommit today nowTime sigHash freshUserId env req sd course
      deliveryMode pol distance? enrollment?

/-- Policy resolution and the network / geofence / signature checks
(`Course.js` 1220–1284). -/
def markAttendancePolicyChecks (reqEnrollDefault : Bool) (today nowTime : String)
    (dist : JsDec → JsDec → JsDec → JsDec → JsDec) (sigHash : String → String)
    (freshUserId : String) (env : Env) (req : MarkRequest) (sd : SessionRecord)
    (course : CourseDoc) : MarkResult × Env :=
  let deliveryMode := normalizeDeliveryMode course.deliveryMode
  let pol := normalizeAttendancePolicy reqEnrollDefault course.attendancePolicy deliveryMode
  let clientIp := getClientIpFromRequest req
  if pol.requireIpAllowlist && pol.ipAllowlist.isEmpty then
    (.reject 400 .allowlistMisconfigured, env)
  else if pol.requireIpAllowlist && ! isIpAllowedByAllowlist clientIp pol.ipAllowlist then
    (.reject 403 .networkNotAllowed, env)
  else if pol.requireGeofence && ! hasValidLocationOf req then
    (.reject 400 .locationRequired, env)
  else if pol.requireGeofence && (pol.geofence.lat.isNone || pol.geofence.lng.isNone) then
    (.reject 400 .geofenceNotConfigured, env)
  else
    let distance? : Option JsDec :=
      if pol.requireGeofence then
        some (dist ((req.location.bind RawLocation.lat).getD 0)
          ((req.location.bind RawLocation.lng).getD 0)
          (pol.geofence.lat.getD 0) (pol.geofence.lng.getD 0))
      else none
    let geofenceRadius :=
      if pol.geofence.radiusMeters.eqv 0 then 120 else pol.geofence.radiusMeters
    if pol.requireGeofence && JsDec.lt geofenceRadius ((distance?).getD 0) then
      (.reject 400 (.outOfRange geofenceRadius ((distance?).getD 0)), env)
    else
      let signatureError :=
        if pol.requireSignature then
          validateSignatureDataUrl (normalizeSignatureDataUrl req.signatureDataUrl)
        else if normalizeSignatureDataUrl req.signatureDataUrl ≠ "" then
          validateSignatureDataUrl (normalizeSignatureDataUrl req.signatureDataUrl)
        else none
      match signatureError with
      | some msg => (.reject 400 (.signatureInvalid msg), env)
      | none => markAttendanceIdentity today nowTime sigHash freshUserId env req sd course
          deliveryMode pol distance?

/-- Session-to-course resolution (`Course.js` 1190–1219): the session must
name a course and an institution, and the course must exist and be
active. -/
def markAttendanceWithSession (reqEnrollDefault : Bool) (today nowTime : String)
    (dist : JsDec → JsDec → JsDec → JsDec → JsDec) (sigHash : String → String)
    (freshUserId : String) (env : Env) (req : MarkRequest) (sd : SessionRecord) :
    MarkResult × Env :=
  if ¬ truthyS sd.courseId then (.reject 400 .noCourseLinked, env)
  else if ¬ truthyS sd.institutionId then (.reject 400 .noInstitutionLinked, env)
  else
    match courseLookup env sd with
    | none => (.reject 404 .courseNotFound, env)
    | some course => markAttendancePolicyChecks reqEnrollDefault today nowTime dist sigHash
        freshUserId env req sd course

/-- The `/mark-attendance` handler (`Course.js` 1129–1188 plus the phases
above): middleware and structural checks, then the session-store lookup —
whose opportunistic eviction of an expired entry is the only mutation a
rejected submission can cause, and it touches only the non-durable
session map. -/
def markAttendance (reqEnrollDefault : Bool) (now : Int) (today nowTime : String)
    (dist : JsDec → JsDec → JsDec → JsDec → JsDec) (sigHash : String → String)
    (freshUserId : String) (env : Env) (req : MarkRequest) : MarkResult × Env :=
  if missingRequiredFields req ≠ [] then
    (.reject 400 (.missingFields (missingRequiredFields req)), env)
  else if ¬ truthyS req.sessionId then (.reject 400 .sessionIdRequired, env)
  else if submittedNameOf req = "" then (.reject 400 .nameRequired, env)
  else if ¬ isValidEmail (submittedEmailOf req) then (.reject 400 .emailInvalid, env)
  else
    let lookup := getSessionDetails now env.sessions (req.sessionId.getD "")
    let env1 := { env with sessions := lookup.2 }
    match lookup.1 with
    | none => (.reject 400 .invalidSession, env1)
    | some sd => markAttendanceWithSession reqEnrollDefault today nowTime dist sigHash
        freshUserId env1 req sd


/-! ## Storage-level insert for the attendances collection -/

/-- Source `InsertAttendance` at the storage layer: a `Attendance.create` against a
collection whose schema declares only the non-unique indexes of
`attendanceIndexes` is an unconditional insert — Mongo rejects a document
only when a *unique* index would be violated, and none is declared. -/
def insertAttendance (coll : List AttendanceRec) (record : AttendanceRec) :
    List AttendanceRec :=
  coll ++ [record]

/-- Number of stored records for one (institution, course, canonical
identity, calendar date) key. -/
def attendanceKeyCount (coll : List AttendanceRec)
    (inst courseId studentEmail date : String) : Nat :=
  (coll.filter (fun a =>
    a.institutionId = inst ∧ a.courseId = some courseId ∧
    a.studentEmail = studentEmail ∧ a.date = date)).length

/-! ## Concrete fixtures used by witnesses and counterexamples -/

/-- A raw course policy with every optional feature switched off. -/
def rawPolicyOff : RawPolicy :=
  { singleDevicePerDay := .bool false, requireSignature := .bool false,
    requireEnrollment := .bool false, requireIpAllowlist := .bool false,
    requireGeofence := .bool false, ipAllowlist := .arr [], geofence := none }

/-- A raw course policy demanding an IP allowlist while configuring none —
the internally-inconsistent combination the spec discusses. -/
def rawPolicyBadAllowlist : RawPolicy :=
  { singleDevicePerDay := .bool false, requireSignature := .bool false,
    requireEnrollment := .bool false, requireIpAllowlist := .bool true,
    requireGeofence := .bool false, ipAllowlist := .arr [], geofence := none }

/-- A raw course policy demanding a geofence while configuring no
coordinates. -/
def rawPolicyBadGeofence : RawPolicy :=
  { singleDevicePerDay := .bool false, requireSignature := .bool false,
    requireEnrollment := .bool false, requireIpAllowlist := .bool false,
    requireGeofence := .bool true, ipAllowlist := .arr [], geofence := some {} }

/-- A live session record bound to course `c1` of institution `i1`. -/
def sampleSession : SessionRecord :=
  { ip := "9.9.9.9", expiresAt := 100000, createdAt := 10000,
    generatedBy := some "t1", generatedByRole := some "teacher",
    institutionId := some "i1", courseId := some "c1",
    courseCode := some "CS101", courseName := some "Intro", sectionName := some "A" }

/-- An active course with all optional checks off. -/
def sampleCourse : CourseDoc :=
  { id := "c1", institutionId := "i1", isActive := true, code := "CS101",
    name := "Intro", sectionName := "A", deliveryMode := "in_person",
    attendancePolicy := some rawPolicyOff }

/-- The same course configured with the inconsistent allowlist policy. -/
def courseBadAllowlist : CourseDoc :=
  { sampleCourse with attendancePolicy := some rawPolicyBadAllowlist }

/-- An enrollment row for `jane@x.com`, stored under the roster name
`Jane Roe`. -/
def sampleEnrollment : EnrollmentRow :=
  { institutionId := "i1", courseId := "c1", isActive := true,
    universityRollNo := "jane@x.com", fullName := "Jane Roe",
    sectionName := "A", classRollNo := "17" }

/-- Environment: one live session, one open course, empty roster and
collections. -/
def envOpen : Env :=
  { sessions := [("s1", sampleSession)], courses := [sampleCourse],
    enrollments := [], attendances := [], users := [] }

/-- Environment whose course has the inconsistent allowlist policy. -/
def envBadAllowlist : Env :=
  { envOpen with courses := [courseBadAllowlist] }

/-- Environment with the roster row for `jane@x.com` present. -/
def envWithRoster : Env :=
  { envOpen with enrollments := [sampleEnrollment] }

/-- A structurally valid submission for the live session. -/
def reqOk : MarkRequest :=
  { name := some "John Smith", email := some "john@x.com",
    deviceFingerprint := some "dev1", sessionId := some "s1", reqIp := "1.2.3.4" }

/-- The same submission matched against the roster by e-mail but carrying a
different name than the roster row. -/
def reqImpostor : MarkRequest :=
  { reqOk with email := some "jane@x.com", name := some "Someone Else" }

/-- A submission whose email is syntactically invalid. -/
def reqBadEmail : MarkRequest :=
  { reqOk with email := some "nope" }

/-- A submission volunteering a structurally invalid signature even though
the policy does not require one. -/
def reqOptionalBadSignature : MarkRequest :=
  { reqOk with signatureDataUrl := some "data:image/png;base64,AAAA" }

/-- A trivial stand-in for the haversine distance parameter where the
geofence is disabled. -/
def distZero : JsDec → JsDec → JsDec → JsDec → JsDec := fun _ _ _ _ => 0

/-- A trivial stand-in for the SHA-256 parameter. -/
def hashId : String → String := fun s => s

/-- Shorthand for running the pipeline on the fixtures at time 50000. -/
def runMark (env : Env) (req : MarkRequest) : MarkResult × Env :=
  markAttendance true 50000 "2026-10-12" "10:00:00" distZero hashId "u1" env req

/-- A concrete attendance record used to probe the storage layer. -/
def dupRecord : AttendanceRec :=
  { institutionId := "i1", name := "John Smith", studentEmail := "john@x.com",
    universityRollNo := "john@x.com", sectionName := "A", classRollNo := "N/A",
    date := "2026-10-12", time := "10:00:00", sessionId := "s1",
    courseId := some "c1", studentId := "u1", deviceFingerprint := "dev1",
    attendancePolicySnapshot := normalizeAttendancePolicy true (some rawPolicyOff) "in_person" }

/-- Issuance context used by the session-store probes. -/
def qrCtx : SessionContext :=
  { generatedBy := some "t1", generatedByRole := some "teacher",
    institutionId := some "i1", courseId := some "c1", sectionName := some "A" }

/-- Empty qr-module state. -/
def qrSt0 : QRState := { activeSessions := [], ipCache := [] }

/-- A session record that expired long before the probe time 50000. -/
def expiredSession : SessionRecord :=
  { sampleSession with expiresAt := 100 }

/-- Environment whose only session has already expired (the lookup inside
the pipeline will evict it, mutating the non-durable session map). -/
def envExpired : Env :=
  { envOpen with sessions := [("s1", expiredSession)] }

/-- A well-formed optional signature: the PNG data-url header followed by
160 base64 characters, decoding to 120 bytes. -/
def goodSignature : String :=
  "data:image/png;base64," ++ String.mk (List.replicate 160 'A')

/-! ## Helper lemmas -/

/-- The mask computed by the source equals the "top `p` bits set" mask
`2^32 - 2^(32-p)` for every admissible prefix length. -/
theorem jsCidrMask_eq (p : Nat) (hp : p ≤ 32) :
    jsCidrMask p = 2 ^ 32 - 2 ^ (32 - p) := by
  interval_cases p <;> decide

/-- Looking up a key just stored in the session map yields the stored
record. -/
theorem SessionMap.get_set (m : SessionMap) (k : String) (v : SessionRecord) :
    (m.set k v).get k = some v := by
  induction m with
  | nil => simp [SessionMap.set, SessionMap.get]
  | cons e t ih =>
    by_cases hek : e.1 = k
    · simp [SessionMap.set, SessionMap.get, List.find?, hek]
    · simp only [SessionMap.set, List.find?, SessionMap.get] at *
      by_cases hsome : (List.find? (fun x => decide (x.1 = k)) t).isSome
      · simp [hek, hsome] at *
        simpa [hek, hsome] using ih
      · simp [hek, hsome] at *
        simpa [hek, hsome] using ih

/-! ## Claim theorems -/

/-- C1: the claim says the `InsertAttendance` storage operation enforces
the (institution, course, identity, date) / device uniqueness invariant
via a compound unique constraint, the pipeline's duplicate lookups being
only a pre-check.  The schema declares the four matching compound indexes
but none of them is unique, so the storage layer accepts a duplicate
record for the same key: inserting the same record twice yields two
stored records for one (institution, course, canonical identity, date)
key.  The spec ("must enforce the uniqueness invariant … at the storage
layer", "the uniqueness constraint at the storage layer is the sole
mechanism preventing two concurrent duplicate submissions from both
succeeding") is the evident intent, and the schema — which does declare
`unique: true` indexes elsewhere in the repository (CourseEnrollment) —
omits it here: a code bug. -/
theorem C1_storage_has_no_unique_constraint :
    attendanceIndexes.all (fun i => !i.unique) = true ∧
    attendanceKeyCount
      (insertAttendance (insertAttendance [] dupRecord) dupRecord)
      "i1" "c1" "john@x.com" "2026-10-12" = 2 := by
  exact ⟨by decide, by decide⟩

/-- C2 counterexample: the claim says a session is valid exactly on
`[issuedAt, expiresAt)` and that a lookup at a time `≥ expiresAt` returns
`NotFound`.  The source tests `Date.now() > session.expiresAt`, so at
`now = expiresAt` the session is still returned: `sampleSession` expires
at 100000 and lookup at exactly 100000 hits. -/
theorem C2_counterexample_boundary_lookup_hits :
    sampleSession.expiresAt = 100000 ∧
    getSessionDetails 100000 [("s1", sampleSession)] "s1" =
      (some sampleSession, [("s1", sampleSession)]) := by
  exact ⟨rfl, by decide⟩

/-- C2 (amended): a stored session is returned by `Lookup` iff
`now ≤ expiresAt` (the validity interval is closed at `expiresAt`, and
`issuedAt` is not consulted); for `now > expiresAt` the entry is deleted
by the lookup and `NotFound` is returned; an unknown id returns
`NotFound` without mutating the store.  `Lookup` is a total function, so
no input throws. -/
theorem C2_lookup_valid_iff_not_past_expiry
    (now : Int) (sessions : SessionMap) (sid : String) :
    (∀ rec, sessions.get sid = some rec →
      (now ≤ rec.expiresAt →
        getSessionDetails now sessions sid = (some rec, sessions)) ∧
      (rec.expiresAt < now →
        getSessionDetails now sessions sid = (none, sessions.del sid))) ∧
    (sessions.get sid = none →
      getSessionDetails now sessions sid = (none, sessions)) := by
  constructor
  · intro rec hget
    constructor
    · intro hle
      simp only [getSessionDetails, hget]
      rw [if_neg (by omega)]
    · intro hlt
      simp only [getSessionDetails, hget]
      rw [if_pos hlt]
  · intro hget
    simp only [getSessionDetails, hget]

/-- C2 witness: instantiating the amended lookup contract at the concrete
fixture (hit at its expiry instant, miss one millisecond later with the
entry evicted). -/
theorem C2_lookup_witness :
    getSessionDetails 99999 [("s1", sampleSession)] "s1" =
      (some sampleSession, [("s1", sampleSession)]) ∧
    getSessionDetails 100001 [("s1", sampleSession)] "s1" =
      (none, SessionMap.del [("s1", sampleSession)] "s1") := by
  refine ⟨?_, ?_⟩
  · exact ((C2_lookup_valid_iff_not_past_expiry 99999 [("s1", sampleSession)] "s1").1
      sampleSession (by decide)).1 (by decide)
  · exact ((C2_lookup_valid_iff_not_past_expiry 100001 [("s1", sampleSession)] "s1").1
      sampleSession (by decide)).2 (by decide)

/-- C5 counterexample: the claim says every issuance call returns a fresh,
unique `sessionId`, and in particular two calls from the same issuer, IP
and course in quick succession never return the same id.  The source
caches the full issuance result per (ip, institution, issuer, course,
section) key for `CACHE_TIME = 90000` ms and returns the cached result
as-is: two calls 1000 ms apart return the *same* `sessionId` even though
the second call had fresh randomness ("bb…") available. -/
theorem C5_counterexample_cache_reuses_session_id :
    (let r1 := generateQRCode 1000 "aaaaaaaaaaaaaaaaaaaaaaaaaaaaaaaa" qrSt0 "1.2.3.4" qrCtx
     let r2 := generateQRCode 2000 "bbbbbbbbbbbbbbbbbbbbbbbbbbbbbbbb" r1.2 "1.2.3.4" qrCtx
     r1.1.sessionId = r2.1.sessionId ∧
       r1.1.sessionId = "aaaaaaaaaaaaaaaaaaaaaaaaaaaaaaaa") := by
  exact ⟨by decide, by decide⟩

/-- C5 (amended): when the issuance cache has no entry for the
(ip, institution, issuer, course, section) key — or only a stale one
(older than `CACHE_TIME`) — `generateQRCode` does return a session built
from the 128-bit CSPRNG output of this call (`crypto.randomBytes(16)` as
32 hex characters), with `expiresAt = now + TTL` for `TTL = 90000` ms and
the record registered in the store; but a cached result younger than
`CACHE_TIME` for the same key is returned unchanged, `sessionId`
included. -/
theorem C5_fresh_session_on_cache_miss
    (now : Int) (freshHex : String) (st : QRState) (ip : String) (ctx : SessionContext)
    (hstale : ∀ e, List.find? (fun x => x.1 = makeCacheKey ip ctx) st.ipCache = some e →
      CACHE_TIME ≤ now - e.2.timestamp) :
    (generateQRCode now freshHex st ip ctx).1.sessionId = freshHex ∧
    (generateQRCode now freshHex st ip ctx).1.expiresIn = QR_CODE_VALIDITY ∧
    ((generateQRCode now freshHex st ip ctx).2.activeSessions.get freshHex).map
        SessionRecord.expiresAt = some (now + QR_CODE_VALIDITY) ∧
    ((generateQRCode now freshHex st ip ctx).2.activeSessions.get freshHex).map
        SessionRecord.createdAt = some now := by
  have hfresh : generateQRCode now freshHex st ip ctx =
      generateQRCode.generateFresh now freshHex st ip ctx (makeCacheKey ip ctx) := by
    unfold generateQRCode
    cases hfind : List.find? (fun x => x.1 = makeCacheKey ip ctx) st.ipCache with
    | none => simp [hfind]
    | some e =>
      have hst := hstale e hfind
      simp [hfind]
      intro hlt
      omega
  rw [hfresh]
  unfold generateQRCode.generateFresh
  refine ⟨rfl, rfl, ?_, ?_⟩ <;>
    simp [SessionMap.get_set]

/-- C5 witness: a call against the empty cache returns the randomness it
was given as the session id, with a 90-second lifetime registered in the
store. -/
theorem C5_fresh_session_witness :
    (generateQRCode 1000 "aaaaaaaaaaaaaaaaaaaaaaaaaaaaaaaa" qrSt0 "1.2.3.4" qrCtx).1.sessionId =
      "aaaaaaaaaaaaaaaaaaaaaaaaaaaaaaaa" ∧
    ((generateQRCode 1000 "aaaaaaaaaaaaaaaaaaaaaaaaaaaaaaaa" qrSt0 "1.2.3.4"
        qrCtx).2.activeSessions.get "aaaaaaaaaaaaaaaaaaaaaaaaaaaaaaaa").map
      SessionRecord.expiresAt = some 91000 := by
  have h := C5_fresh_session_on_cache_miss 1000 "aaaaaaaaaaaaaaaaaaaaaaaaaaaaaaaa" qrSt0
    "1.2.3.4" qrCtx (by intro e he; simp [qrSt0] at he)
  exact ⟨h.1, h.2.2.1⟩

/-- C6: for a candidate and an allowlist entry `base/prefixStr` whose
prefix parses (as JavaScript `Number`) to an integer between 0 and 32 and
whose two addresses parse as IPv4, the CIDR match holds iff the
candidate and the network agree on the top `prefix` bits — i.e. under the
mask `2^32 - 2^(32-prefix)`; and the three concrete examples of the spec
hold, the third through the exact-match (no `/prefix`) path. -/
theorem C6_cidr_matching
    : (∀ (ip base pfxStr cidr : String) (q : JsDec) (a b : Nat),
        jsSplit '/' cidr = [base, pfxStr] →
        jsNumber pfxStr = some q → q.isInt = true →
        0 ≤ q.toInt → q.toInt ≤ 32 →
        ipv4ToInt ip = some a → ipv4ToInt base = some b →
        (isIpv4CidrMatch ip cidr = true ↔
          a.land (2 ^ 32 - 2 ^ (32 - q.toInt.toNat)) =
            b.land (2 ^ 32 - 2 ^ (32 - q.toInt.toNat)))) ∧
      isIpAllowedByAllowlist "10.0.0.5" ["10.0.0.0/24"] = true ∧
      isIpAllowedByAllowlist "10.0.1.5" ["10.0.0.0/24"] = false ∧
      isIpAllowedByAllowlist "192.168.1.10" ["192.168.1.10"] = true := by
  refine ⟨?_, by decide, by decide, by decide⟩
  intro ip base pfxStr cidr q a b hsplit hq hint h0 h32 ha hb
  have hmask : jsCidrMask q.toInt.toNat = 2 ^ 32 - 2 ^ (32 - q.toInt.toNat) :=
    jsCidrMask_eq q.toInt.toNat (by omega)
  simp only [isIpv4CidrMatch, hsplit]
  simp only [List.headD, List.getElem?_cons_succ, List.getElem?_cons_zero, hq, ha, hb]
  rw [if_pos ⟨hint, h0, h32⟩, hmask]
  exact decide_eq_true_iff

/-- C6 witness: the general mask characterization applied at the concrete
spec example `isAllowed("10.0.0.5", "10.0.0.0/24")`, whose two sides
evaluate to a true bit-level equation. -/
theorem C6_cidr_matching_witness :
    isIpv4CidrMatch "10.0.0.5" "10.0.0.0/24" = true := by
  have h := C6_cidr_matching.1 "10.0.0.5" "10.0.0.0" "24" "10.0.0.0/24"
    ⟨24, 0⟩ 167772165 167772160 (by decide) (by decide) (by decide)
    (by decide) (by decide) (by decide) (by decide)
  exact h.mpr (by decide)

/-- C7 counterexample: the claim says a malformed entry or candidate (here
an octet larger than 255) never matches, and a malformed input never
causes a candidate to be allowed.  But an allowlist entry without a
`/prefix` is compared by plain string equality, so the malformed candidate
`999.0.0.1` *is* allowed by the malformed entry `999.0.0.1` even though
neither parses as IPv4. -/
theorem C7_counterexample_malformed_exact_match_allows :
    ipv4ToInt "999.0.0.1" = none ∧
    isIpAllowedByAllowlist "999.0.0.1" ["999.0.0.1"] = true := by
  exact ⟨by decide, by decide⟩

/-- C7 (amended): the CIDR path does fail closed — an entry containing a
`/` never matches a candidate that does not parse as IPv4, an entry whose
base address does not parse never matches, and a prefix that does not
parse to a number never matches; every allowlist hit is either a CIDR
match (hence with a well-formed candidate) or literal string equality of
the normalized candidate and entry, so the only way a malformed input is
allowed is exact textual identity with an allowlist entry; and the
matcher is a total function (it never throws). -/
theorem C7_fail_closed_except_exact_string_equality :
    (∀ ip cidr, ipv4ToInt ip = none → isIpv4CidrMatch ip cidr = false) ∧
    (∀ ip cidr, ipv4ToInt ((jsSplit '/' cidr).headD "") = none →
      isIpv4CidrMatch ip cidr = false) ∧
    (∀ ip cidr, ((jsSplit '/' cidr)[1]?).bind jsNumber = none →
      isIpv4CidrMatch ip cidr = false) ∧
    (∀ ip allowlist, isIpAllowedByAllowlist ip allowlist = true →
      ∃ entry ∈ allowlist,
        (jsIncludesChar (normalizeClientIp entry) '/' = true ∧
          isIpv4CidrMatch (normalizeClientIp ip) (normalizeClientIp entry) = true) ∨
        normalizeClientIp ip = normalizeClientIp entry) := by
  refine ⟨?_, ?_, ?_, ?_⟩
  · intro ip cidr hip
    simp only [isIpv4CidrMatch]
    cases hpn : (jsSplit '/' cidr)[1]? with
    | none => simp
    | some r =>
      cases hq : jsNumber r with
      | none => simp [hq]
      | some q =>
        cases hb : ipv4ToInt ((jsSplit '/' cidr).headD "") with
        | none => simp [hip, hb, hq]
        | some bv => simp [hip, hb, hq]
  · intro ip cidr hbase
    simp only [isIpv4CidrMatch]
    cases hpn : (jsSplit '/' cidr)[1]? with
    | none => simp
    | some r =>
      cases hq : jsNumber r with
      | none => simp [hq]
      | some q =>
        have hbase' : ipv4ToInt ((jsSplit '/' cidr).head?.getD "") = none := by
          simpa using hbase
        cases ha : ipv4ToInt ip with
        | none => simp [ha, hbase', hq]
        | some av => simp [ha, hbase', hq]
  · intro ip cidr hpfx
    simp only [isIpv4CidrMatch]
    cases hpn : (jsSplit '/' cidr)[1]? with
    | none => simp
    | some r =>
      cases hq : jsNumber r with
      | none => simp [hq]
      | some q =>
        rw [hpn] at hpfx
        have h2 : jsNumber r = none := hpfx
        rw [hq] at h2
        cases h2
  · intro ip allowlist hall
    simp only [isIpAllowedByAllowlist] at hall
    split at hall
    · simp at hall
    · obtain ⟨entry, hmem, hentry⟩ := List.any_eq_true.mp hall
      refine ⟨entry, hmem, ?_⟩
      by_cases hempty : normalizeClientIp entry = ""
      · rw [if_pos hempty] at hentry
        simp at hentry
      · rw [if_neg hempty] at hentry
        by_cases hslash : jsIncludesChar (normalizeClientIp entry) '/' = true
        · rw [if_pos hslash] at hentry
          exact Or.inl ⟨hslash, hentry⟩
        · rw [if_neg hslash] at hentry
          split at hentry
          · rename_i hcond
            exact Or.inr hcond.2.2
          · exact Or.inr (by simpa using hentry)

/-- C7 witness: the fail-closed clauses applied at concrete malformed
inputs (bad candidate, bad base, bad prefix), and the characterization
applied to the one matching entry of a concrete allowlist hit. -/
theorem C7_fail_closed_witness :
    isIpv4CidrMatch "abc" "10.0.0.0/8" = false ∧
    isIpv4CidrMatch "10.0.0.5" "999.0.0.0/8" = false ∧
    isIpv4CidrMatch "10.0.0.5" "10.0.0.0/zz" = false ∧
    (∃ entry ∈ ["10.0.0.0/24"],
      (jsIncludesChar (normalizeClientIp entry) '/' = true ∧
        isIpv4CidrMatch (normalizeClientIp "10.0.0.5") (normalizeClientIp entry) = true) ∨
      normalizeClientIp "10.0.0.5" = normalizeClientIp entry) := by
  refine ⟨?_, ?_, ?_, ?_⟩
  · exact C7_fail_closed_except_exact_string_equality.1 "abc" "10.0.0.0/8" (by decide)
  · exact C7_fail_closed_except_exact_string_equality.2.1 "10.0.0.5" "999.0.0.0/8" (by decide)
  · exact C7_fail_closed_except_exact_string_equality.2.2.1 "10.0.0.5" "10.0.0.0/zz" (by decide)
  · exact C7_fail_closed_except_exact_string_equality.2.2.2 "10.0.0.5" ["10.0.0.0/24"] (by decide)

/-- C3 counterexample: the claim says a redemption is accepted only if the
token integrity/self-expiry checks AND the session-store lookup all pass,
either failure producing an invalid-session rejection.  But the
`/verify-attendance` handler redirects to the attendance form even when
the store lookup misses: with an *empty* session store, a token whose tag
matches (the digest is instantiated with a concrete function and the tag
computed accordingly) and whose 15-minute window is open is accepted
(redirected), not rejected. -/
theorem C3_counterexample_redirect_despite_store_miss :
    verifyAttendance hashId "k" 2000 []
        (some { sessionId := some "s1", timestamp := some 1000, hash := some "s11000k" }) =
      (.redirect "/index.html?sessionId=s1", []) := by
  decide

/-- C3 (amended): the two layers of session checking are split between two
endpoints rather than conjoined on one.  `/verify-attendance` decides by
the recomputed tag and the 15-minute token window alone — for a
well-formed payload it redirects iff the tag matches and the window is
open, for every session store content — while `/mark-attendance` performs
only the store lookup and rejects with the invalid-session error when it
misses, never seeing the tag. -/
theorem C3_token_and_store_checks_are_separate :
    (∀ (sha : String → String) (secret : String) (now : Int) (sessions : SessionMap)
        (d : VerifyData),
        truthyS d.sessionId = true → truthyI d.timestamp = true → truthyS d.hash = true →
        ((∃ url, (verifyAttendance sha secret now sessions (some d)).1 = .redirect url) ↔
          (d.hash.getD "" =
              sha (d.sessionId.getD "" ++ toString (d.timestamp.getD 0) ++ secret) ∧
            now - d.timestamp.getD 0 ≤ 900000))) ∧
    (∀ (rdef : Bool) (now : Int) (today nowTime : String)
        (dist : JsDec → JsDec → JsDec → JsDec → JsDec) (sigHash : String → String)
        (fuid : String) (env : Env) (req : MarkRequest),
        missingRequiredFields req = [] →
        truthyS req.sessionId = true →
        jsTrim (req.name.getD "") ≠ "" →
        isValidEmail (normalizeEmail (req.email.getD "")) = true →
        (getSessionDetails now env.sessions (req.sessionId.getD "")).1 = none →
        (markAttendance rdef now today nowTime dist sigHash fuid env req).1 =
          .reject 400 .invalidSession) := by
  constructor
  · intro sha secret now sessions d h1 h2 h3
    simp only [verifyAttendance]
    rw [if_neg (by simp [h1, h2, h3])]
    by_cases hh : d.hash.getD "" =
        sha (d.sessionId.getD "" ++ toString (d.timestamp.getD 0) ++ secret)
    · rw [if_neg (by simpa using hh)]
      by_cases hw : 900000 < now - d.timestamp.getD 0
      · rw [if_pos hw]
        constructor
        · rintro ⟨url, hurl⟩
          cases hurl
        · rintro ⟨_, hle⟩
          omega
      · rw [if_neg hw]
        rcases hg : getSessionDetails now sessions (d.sessionId.getD "") with ⟨det, s'⟩
        simp only [hg]
        constructor
        · intro _
          exact ⟨hh, by omega⟩
        · intro _
          exact ⟨_, rfl⟩
    · rw [if_pos (by simpa using hh)]
      constructor
      · rintro ⟨url, hurl⟩
        cases hurl
      · rintro ⟨heq, _⟩
        exact absurd heq hh
  · intro rdef now today nowTime dist sigHash fuid env req hm hsid hname hmail hmiss
    unfold markAttendance
    rw [if_neg (by simp [hm])]
    rw [if_neg (by simp [hsid])]
    rw [if_neg (by simp [submittedNameOf, hname])]
    rw [if_neg (by simp [submittedEmailOf, hmail])]
    rcases hg : getSessionDetails now env.sessions (req.sessionId.getD "") with ⟨det, s'⟩
    rw [hg] at hmiss
    simp only at hmiss
    subst hmiss
    simp [hg]

/-- C3 witness: the two clauses applied at concrete inputs — a well-formed
token over an arbitrary store redirects exactly when its tag and window
check out, and a concrete `/mark-attendance` call on an empty store is
rejected as an invalid session. -/
theorem C3_separate_checks_witness :
    ((∃ url,
        (verifyAttendance hashId "k" 2000 [("s1", sampleSession)]
            (some { sessionId := some "s1", timestamp := some 1000,
                    hash := some "s11000k" })).1 = .redirect url) ↔
      ("s11000k" = hashId ("s1" ++ toString (1000 : Int) ++ "k") ∧
        (2000 : Int) - 1000 ≤ 900000)) ∧
    (markAttendance true 50000 "2026-10-12" "10:00:00" distZero hashId "u1"
        { envOpen with sessions := [] } reqOk).1 = .reject 400 .invalidSession := by
  constructor
  · exact C3_token_and_store_checks_are_separate.1 hashId "k" 2000 [("s1", sampleSession)]
      { sessionId := some "s1", timestamp := some 1000, hash := some "s11000k" }
      (by decide) (by decide) (by decide)
  · exact C3_token_and_store_checks_are_separate.2 true 50000 "2026-10-12" "10:00:00"
      distZero hashId "u1" { envOpen with sessions := [] } reqOk
      (by decide) (by decide) (by decide) (by decide) (by decide)

/-- With no fallback policy, the strict resolver computes exactly the same
resolved fields as the redemption-time resolver and differs only in what
it does with them: it rejects the three internally-inconsistent
combinations and otherwise returns the policy with the *unclamped*
radius, where the redemption-time resolver clamps the radius and never
rejects. -/
theorem buildAttendancePolicy_none_eq (rdef : Bool) (raw : Option RawPolicy) (dm : String) :
    buildAttendancePolicy rdef raw dm none =
      (let pol := normalizeAttendancePolicy rdef raw dm
       let radius := (toNullableNumber (((raw.getD {}).geofence.getD {}).radiusMeters)).getD 120
       if pol.requireIpAllowlist ∧ pol.ipAllowlist = [] then
         Except.error "attendancePolicy.ipAllowlist is required when requireIpAllowlist=true"
       else if pol.requireGeofence ∧ (pol.geofence.lat = none ∨ pol.geofence.lng = none) then
         Except.error "attendancePolicy.geofence.lat/lng are required when requireGeofence=true"
       else if pol.requireGeofence ∧ (radius.lt 10 ∨ JsDec.lt 100000 radius) then
         Except.error "attendancePolicy.geofence.radiusMeters must be between 10 and 100000"
       else Except.ok { pol with geofence := { pol.geofence with radiusMeters := radius } }) := by
  unfold buildAttendancePolicy normalizeAttendancePolicy
  generalize raw.getD {} = s
  obtain ⟨a₁, a₂, a₃, a₄, a₅, arr, geo⟩ := s
  cases arr <;> cases geo <;> rfl

/-- Mantissa of a numeric literal. -/
theorem JsDec.mant_ofNat (n : Nat) : (no_index (OfNat.ofNat n) : JsDec).mant = OfNat.ofNat n :=
  rfl

/-- Exponent of a numeric literal. -/
theorem JsDec.exp_ofNat (n : Nat) : (no_index (OfNat.ofNat n) : JsDec).exp = 0 :=
  rfl

/-- The redemption-time radius clamp lands in `[10, 100000]`. -/
theorem JsDec.clamp_bounds (x : JsDec) :
    JsDec.le 10 (JsDec.jsMax 10 (JsDec.jsMin 100000 x)) = true ∧
    JsDec.le (JsDec.jsMax 10 (JsDec.jsMin 100000 x)) 100000 = true := by
  unfold JsDec.jsMax JsDec.jsMin
  split_ifs <;>
    simp only [JsDec.le, JsDec.mant_ofNat, JsDec.exp_ofNat, decide_eq_true_eq,
      pow_zero, mul_one, Bool.not_eq_true, decide_eq_false_iff_not] at * <;>
    omega

/-- C4 counterexample: the claim says that at a redemption-time read an
inconsistent policy (here `requireIpAllowlist` with an empty allowlist) is
coerced to a safe disabled state so that attendance marking is never
blocked.  In fact the redemption-time resolver keeps the flag raised with
the empty list, and the pipeline then rejects the submission with the
administrator-facing misconfiguration error — marking *is* blocked. -/
theorem C4_counterexample_redemption_read_blocks_marking :
    (normalizeAttendancePolicy true (some rawPolicyBadAllowlist)
        "in_person").requireIpAllowlist = true ∧
    (normalizeAttendancePolicy true (some rawPolicyBadAllowlist) "in_person").ipAllowlist = [] ∧
    (runMark envBadAllowlist reqOk).1 = .reject 400 .allowlistMisconfigured := by
  exact ⟨by decide, by decide, by decide⟩

/-- C4 (amended): the asymmetry is between *rejecting* and *not rejecting*,
not between rejecting and coercing-to-disabled.  Creation/update
resolution fails loud: whenever the resolved policy demands an allowlist
that is empty, or a geofence with a missing coordinate, or carries an
out-of-range radius, `buildAttendancePolicy` returns the corresponding
error.  The redemption-time resolver never rejects and clamps only the
radius into `[10, 100000]`; it preserves the inconsistent
allowlist/geofence flags, and the pipeline, upon reading such a policy,
rejects the submission with the misconfiguration error (counterexample
above) instead of disabling the check.  The genuinely fail-safe wrapper
`mapAttendancePolicy` (used for non-redemption reads) falls back to the
all-defaults policy — every inconsistent feature disabled — when the
strict resolver errors. -/
theorem C4_resolution_rejects_loud_or_blocks :
    (∀ (rdef : Bool) (raw : Option RawPolicy) (dm : String),
        (normalizeAttendancePolicy rdef raw dm).requireIpAllowlist = true →
        (normalizeAttendancePolicy rdef raw dm).ipAllowlist = [] →
        buildAttendancePolicy rdef raw dm none =
          .error "attendancePolicy.ipAllowlist is required when requireIpAllowlist=true") ∧
    (∀ (rdef : Bool) (raw : Option RawPolicy) (dm : String),
        ¬ ((normalizeAttendancePolicy rdef raw dm).requireIpAllowlist = true ∧
            (normalizeAttendancePolicy rdef raw dm).ipAllowlist = []) →
        (normalizeAttendancePolicy rdef raw dm).requireGeofence = true →
        ((normalizeAttendancePolicy rdef raw dm).geofence.lat = none ∨
          (normalizeAttendancePolicy rdef raw dm).geofence.lng = none) →
        buildAttendancePolicy rdef raw dm none =
          .error "attendancePolicy.geofence.lat/lng are required when requireGeofence=true") ∧
    (∀ (rdef : Bool) (raw : Option RawPolicy) (dm : String),
        ¬ ((normalizeAttendancePolicy rdef raw dm).requireIpAllowlist = true ∧
            (normalizeAttendancePolicy rdef raw dm).ipAllowlist = []) →
        (normalizeAttendancePolicy rdef raw dm).requireGeofence = true →
        (normalizeAttendancePolicy rdef raw dm).geofence.lat ≠ none →
        (normalizeAttendancePolicy rdef raw dm).geofence.lng ≠ none →
        ((toNullableNumber (((raw.getD {}).geofence.getD {}).radiusMeters)).getD 120).lt 10 = true ∨
          JsDec.lt 100000 ((toNullableNumber
            (((raw.getD {}).geofence.getD {}).radiusMeters)).getD 120) = true →
        buildAttendancePolicy rdef raw dm none =
          .error "attendancePolicy.geofence.radiusMeters must be between 10 and 100000") ∧
    (∀ (rdef : Bool) (raw : Option RawPolicy) (dm : String),
        JsDec.le 10 (normalizeAttendancePolicy rdef raw dm).geofence.radiusMeters = true ∧
        JsDec.le (normalizeAttendancePolicy rdef raw dm).geofence.radiusMeters 100000 = true) ∧
    (∀ (rdef : Bool) (raw : Option RawPolicy) (dm : String) (e : String),
        buildAttendancePolicy rdef raw dm none = .error e →
        mapAttendancePolicy rdef raw dm = buildAttendancePolicy rdef none dm none ∧
        buildAttendancePolicy rdef none dm none =
          .ok { deliveryMode := dm, singleDevicePerDay := true, requireSignature := true,
                requireEnrollment := rdef, requireIpAllowlist := false, ipAllowlist := [],
                requireGeofence := false,
                geofence := { lat := none, lng := none, radiusMeters := 120 } }) := by
  refine ⟨?_, ?_, ?_, ?_, ?_⟩
  · intro rdef raw dm h1 h2
    rw [buildAttendancePolicy_none_eq]
    simp only
    rw [if_pos ⟨h1, h2⟩]
  · intro rdef raw dm hno h1 h2
    rw [buildAttendancePolicy_none_eq]
    simp only
    rw [if_neg hno, if_pos ⟨h1, h2⟩]
  · intro rdef raw dm hno h1 hlat hlng hrad
    rw [buildAttendancePolicy_none_eq]
    simp only
    rw [if_neg hno, if_neg (by tauto), if_pos ⟨h1, by simpa using hrad⟩]
  · intro rdef raw dm
    exact JsDec.clamp_bounds _
  · intro rdef raw dm e herr
    refine ⟨?_, ?_⟩
    · simp only [mapAttendancePolicy, herr]
    · cases rdef <;> rfl

/-- C4 witness: the loud-rejection clauses applied to the two concrete
inconsistent raw policies and the coercion clause applied to the first of
them. -/
theorem C4_resolution_witness :
    buildAttendancePolicy true (some rawPolicyBadAllowlist) "in_person" none =
      .error "attendancePolicy.ipAllowlist is required when requireIpAllowlist=true" ∧
    buildAttendancePolicy true (some rawPolicyBadGeofence) "in_person" none =
      .error "attendancePolicy.geofence.lat/lng are required when requireGeofence=true" ∧
    mapAttendancePolicy true (some rawPolicyBadAllowlist) "in_person" =
      .ok { deliveryMode := "in_person", singleDevicePerDay := true, requireSignature := true,
            requireEnrollment := true, requireIpAllowlist := false, ipAllowlist := [],
            requireGeofence := false,
            geofence := { lat := none, lng := none, radiusMeters := 120 } } := by
  have hbad := C4_resolution_rejects_loud_or_blocks.1 true (some rawPolicyBadAllowlist)
    "in_person" (by decide) (by decide)
  have hgeo := C4_resolution_rejects_loud_or_blocks.2.1 true (some rawPolicyBadGeofence)
    "in_person" (by decide) (by decide) (by decide)
  have hmap := C4_resolution_rejects_loud_or_blocks.2.2.2.2 true (some rawPolicyBadAllowlist)
    "in_person" _ hbad
  exact ⟨hbad, hgeo, hmap.1.trans hmap.2⟩

/-- C8: whenever the enrollment lookup finds a roster row for a submission
(by e-mail/identifier or by name), the roster row stores a non-empty name
(the schema requires one), and the submitted name does not normalize
equal (case-insensitive, whitespace-normalized) to the stored name, the
pipeline rejects the submission with the name-mismatch error — even
though the row may have been matched by e-mail.  The hypotheses express
that the submission reaches the identity-resolution step: the structural,
session, course, network, geofence and signature checks all pass. -/
theorem C8_roster_name_mismatch_rejected
    (rdef : Bool) (now : Int) (today nowTime : String)
    (dist : JsDec → JsDec → JsDec → JsDec → JsDec) (sigHash : String → String)
    (fuid : String) (env : Env) (req : MarkRequest)
    (srec : SessionRecord) (sessions' : SessionMap) (course : CourseDoc)
    (pol : AttendancePolicy) (erow : EnrollmentRow)
    (hm : missingRequiredFields req = [])
    (hsid : truthyS req.sessionId = true)
    (hname : jsTrim (req.name.getD "") ≠ "")
    (hmail : isValidEmail (normalizeEmail (req.email.getD "")) = true)
    (hsess : getSessionDetails now env.sessions (req.sessionId.getD "") = (some srec, sessions'))
    (hcid : truthyS srec.courseId = true)
    (hiid : truthyS srec.institutionId = true)
    (hfind : courseLookup env srec = some course)
    (hpol : normalizeAttendancePolicy rdef course.attendancePolicy
        (normalizeDeliveryMode course.deliveryMode) = pol)
    (hnet1 : (pol.requireIpAllowlist && pol.ipAllowlist.isEmpty) = false)
    (hnet2 : (pol.requireIpAllowlist &&
        ! isIpAllowedByAllowlist (getClientIpFromRequest req) pol.ipAllowlist) = false)
    (hgeo1 : (pol.requireGeofence && ! hasValidLocationOf req) = false)
    (hgeo2 : (pol.requireGeofence &&
        (pol.geofence.lat.isNone || pol.geofence.lng.isNone)) = false)
    (hgeo3 : (pol.requireGeofence && JsDec.lt
        (if pol.geofence.radiusMeters.eqv 0 then 120 else pol.geofence.radiusMeters)
        ((if pol.requireGeofence then
            some (dist ((req.location.bind RawLocation.lat).getD 0)
              ((req.location.bind RawLocation.lng).getD 0)
              (pol.geofence.lat.getD 0) (pol.geofence.lng.getD 0))
          else none).getD 0)) = false)
    (hsig : (if pol.requireSignature then
        validateSignatureDataUrl (normalizeSignatureDataUrl req.signatureDataUrl)
      else if normalizeSignatureDataUrl req.signatureDataUrl ≠ "" then
        validateSignatureDataUrl (normalizeSignatureDataUrl req.signatureDataUrl)
      else none) = none)
    (henr : enrollmentLookup env req srec = some erow)
    (hfn : erow.fullName ≠ "")
    (hneq : normalizeName erow.fullName ≠ normalizeName (jsTrim (req.name.getD ""))) :
    (markAttendance rdef now today nowTime dist sigHash fuid env req).1 =
      .reject 400 .nameMismatch := by
  have hnm : namesMatch erow.fullName (jsTrim (req.name.getD "")) = false := by
    simp [namesMatch, hfn, hname, hneq]
  have hfind' : courseLookup { env with sessions := sessions' } srec = some course := hfind
  have henr' : enrollmentLookup { env with sessions := sessions' } req srec = some erow := henr
  unfold markAttendance
  rw [if_neg (by simp [hm])]
  rw [if_neg (by simp [hsid])]
  rw [if_neg (by simp [submittedNameOf, hname])]
  rw [if_neg (by simp [submittedEmailOf, hmail])]
  simp only [hsess]
  unfold markAttendanceWithSession
  rw [if_neg (by simp [hcid])]
  rw [if_neg (by simp [hiid])]
  simp only [hfind']
  unfold markAttendancePolicyChecks
  simp only [hpol]
  rw [if_neg (by simp [hnet1])]
  rw [if_neg (by simp [hnet2])]
  rw [if_neg (by simp [hgeo1])]
  rw [if_neg (by simp [hgeo2])]
  rw [if_neg (by simp [hgeo3])]
  simp only [hsig]
  unfold markAttendanceIdentity
  simp only [henr']
  rw [if_neg (by simp)]
  rw [if_pos (by simp [submittedNameOf, hnm])]

/-- C8 witness: `reqImpostor` matches the roster row of `jane@x.com` by
e-mail but submits the name "Someone Else"; the pipeline rejects it with
the name-mismatch error. -/
theorem C8_roster_name_mismatch_witness :
    (markAttendance true 50000 "2026-10-12" "10:00:00" distZero hashId "u1"
        envWithRoster reqImpostor).1 = .reject 400 .nameMismatch := by
  exact C8_roster_name_mismatch_rejected true 50000 "2026-10-12" "10:00:00" distZero hashId
    "u1" envWithRoster reqImpostor sampleSession [("s1", sampleSession)] sampleCourse
    (normalizeAttendancePolicy true sampleCourse.attendancePolicy
      (normalizeDeliveryMode sampleCourse.deliveryMode))
    sampleEnrollment
    (by decide) (by decide) (by decide) (by decide) (by decide) (by decide) (by decide)
    (by decide) rfl (by decide) (by decide) (by decide) (by decide) (by decide) (by decide)
    (by decide) (by decide) (by decide)

/-- The commit phase always accepts, appends exactly one attendance
record, and touches no other collection than `users`. -/
theorem markAttendanceCommit_facts (today nowTime : String) (sigHash : String → String)
    (fuid : String) (env : Env) (req : MarkRequest) (sd : SessionRecord)
    (course : CourseDoc) (dm : String) (pol : AttendancePolicy)
    (d? : Option JsDec) (e? : Option EnrollmentRow) :
    (∀ (s : Nat) (r : MarkReason) (env' : Env),
        markAttendanceCommit today nowTime sigHash fuid env req sd course dm pol d? e? =
          (.reject s r, env') → env' = env) ∧
    (∀ (att : AttendanceRec) (env' : Env),
        markAttendanceCommit today nowTime sigHash fuid env req sd course dm pol d? e? =
          (.success att, env') →
        env'.courses = env.courses ∧ env'.enrollments = env.enrollments ∧
        env'.sessions = env.sessions ∧ env'.attendances = env.attendances ++ [att]) := by
  constructor
  · intro s r env' h
    exact absurd (Prod.ext_iff.mp h).1 (by simp [markAttendanceCommit])
  · intro att env' h
    obtain ⟨h1, h2⟩ := Prod.ext_iff.mp h
    subst h2
    injection h1 with h3
    subst h3
    exact ⟨rfl, rfl, rfl, rfl⟩

/-- The identity/duplicate phase either rejects with the state unchanged
or commits. -/
theorem markAttendanceIdentity_facts (today nowTime : String) (sigHash : String → String)
    (fuid : String) (env : Env) (req : MarkRequest) (sd : SessionRecord)
    (course : CourseDoc) (dm : String) (pol : AttendancePolicy) (d? : Option JsDec) :
    (∀ (s : Nat) (r : MarkReason) (env' : Env),
        markAttendanceIdentity today nowTime sigHash fuid env req sd course dm pol d? =
          (.reject s r, env') → env' = env) ∧
    (∀ (att : AttendanceRec) (env' : Env),
        markAttendanceIdentity today nowTime sigHash fuid env req sd course dm pol d? =
          (.success att, env') →
        env'.courses = env.courses ∧ env'.enrollments = env.enrollments ∧
        env'.sessions = env.sessions ∧ env'.attendances = env.attendances ++ [att]) := by
  constructor
  · intro s r env' h
    simp only [markAttendanceIdentity] at h
    repeat' split at h
    all_goals
      first
      | exact (markAttendanceCommit_facts _ _ _ _ _ _ _ _ _ _ _ _).1 _ _ _ h
      | exact (Prod.ext_iff.mp h).2.symm
  · intro att env' h
    simp only [markAttendanceIdentity] at h
    repeat' split at h
    all_goals
      first
      | exact (markAttendanceCommit_facts _ _ _ _ _ _ _ _ _ _ _ _).2 _ _ h
      | exact absurd (Prod.ext_iff.mp h).1 (by simp)

/-- The policy-checks phase either rejects with the state unchanged or
defers to the identity phase. -/
theorem markAttendancePolicyChecks_facts (rdef : Bool) (today nowTime : String)
    (dist : JsDec → JsDec → JsDec → JsDec → JsDec) (sigHash : String → String)
    (fuid : String) (env : Env) (req : MarkRequest) (sd : SessionRecord)
    (course : CourseDoc) :
    (∀ (s : Nat) (r : MarkReason) (env' : Env),
        markAttendancePolicyChecks rdef today nowTime dist sigHash fuid env req sd course =
          (.reject s r, env') → env' = env) ∧
    (∀ (att : AttendanceRec) (env' : Env),
        markAttendancePolicyChecks rdef today nowTime dist sigHash fuid env req sd course =
          (.success att, env') →
        env'.courses = env.courses ∧ env'.enrollments = env.enrollments ∧
        env'.sessions = env.sessions ∧ env'.attendances = env.attendances ++ [att]) := by
  constructor
  · intro s r env' h
    simp only [markAttendancePolicyChecks] at h
    repeat' split at h
    all_goals
      first
      | exact (markAttendanceIdentity_facts _ _ _ _ _ _ _ _ _ _ _).1 _ _ _ h
      | exact (Prod.ext_iff.mp h).2.symm
  · intro att env' h
    simp only [markAttendancePolicyChecks] at h
    repeat' split at h
    all_goals
      first
      | exact (markAttendanceIdentity_facts _ _ _ _ _ _ _ _ _ _ _).2 _ _ h
      | exact absurd (Prod.ext_iff.mp h).1 (by simp)

/-- The session-to-course phase either rejects with the state unchanged or
defers to the policy-checks phase. -/
theorem markAttendanceWithSession_facts (rdef : Bool) (today nowTime : String)
    (dist : JsDec → JsDec → JsDec → JsDec → JsDec) (sigHash : String → String)
    (fuid : String) (env : Env) (req : MarkRequest) (sd : SessionRecord) :
    (∀ (s : Nat) (r : MarkReason) (env' : Env),
        markAttendanceWithSession rdef today nowTime dist sigHash fuid env req sd =
          (.reject s r, env') → env' = env) ∧
    (∀ (att : AttendanceRec) (env' : Env),
        markAttendanceWithSession rdef today nowTime dist sigHash fuid env req sd =
          (.success att, env') →
        env'.courses = env.courses ∧ env'.enrollments = env.enrollments ∧
        env'.sessions = env.sessions ∧ env'.attendances = env.attendances ++ [att]) := by
  constructor
  · intro s r env' h
    simp only [markAttendanceWithSession] at h
    repeat' split at h
    all_goals
      first
      | exact (markAttendancePolicyChecks_facts _ _ _ _ _ _ _ _ _ _).1 _ _ _ h
      | exact (Prod.ext_iff.mp h).2.symm
  · intro att env' h
    simp only [markAttendanceWithSession] at h
    repeat' split at h
    all_goals
      first
      | exact (markAttendancePolicyChecks_facts _ _ _ _ _ _ _ _ _ _).2 _ _ h
      | exact absurd (Prod.ext_iff.mp h).1 (by simp)

/-- C9: every rejection leaves the durable collections (courses,
enrollments, attendances, users) exactly as they were — the in-memory
session map is the only state a failed submission can touch (an expired
entry is evicted during lookup) — and an accepted submission's sole
durable effects are the commit itself: the one new attendance record and
the student upsert performed in the commit step. -/
theorem C9_rejections_leave_no_durable_trace
    (rdef : Bool) (now : Int) (today nowTime : String)
    (dist : JsDec → JsDec → JsDec → JsDec → JsDec) (sigHash : String → String)
    (fuid : String) (env : Env) (req : MarkRequest) :
    (∀ (s : Nat) (reason : MarkReason) (env' : Env),
        markAttendance rdef now today nowTime dist sigHash fuid env req =
          (.reject s reason, env') →
        env'.courses = env.courses ∧ env'.enrollments = env.enrollments ∧
        env'.attendances = env.attendances ∧ env'.users = env.users) ∧
    (∀ (rec : AttendanceRec) (env' : Env),
        markAttendance rdef now today nowTime dist sigHash fuid env req =
          (.success rec, env') →
        env'.attendances = env.attendances ++ [rec] ∧
        env'.courses = env.courses ∧ env'.enrollments = env.enrollments) := by
  constructor
  · intro s reason env' h
    simp only [markAttendance] at h
    repeat' split at h
    all_goals
      first
      | (have h2 := (markAttendanceWithSession_facts _ _ _ _ _ _ _ _ _).1 _ _ _ h
         subst h2
         exact ⟨rfl, rfl, rfl, rfl⟩)
      | (obtain ⟨h1, h2⟩ := Prod.ext_iff.mp h
         subst h2
         exact ⟨rfl, rfl, rfl, rfl⟩)
  · intro rec env' h
    simp only [markAttendance] at h
    repeat' split at h
    all_goals
      first
      | exact ⟨((markAttendanceWithSession_facts _ _ _ _ _ _ _ _ _).2 _ _ h).2.2.2,
          ((markAttendanceWithSession_facts _ _ _ _ _ _ _ _ _).2 _ _ h).1,
          ((markAttendanceWithSession_facts _ _ _ _ _ _ _ _ _).2 _ _ h).2.1⟩
      | exact absurd (Prod.ext_iff.mp h).1 (by simp)

/-- C9 witness: a concrete rejected submission (expired session; the
lookup evicts the entry, so the non-durable session map changes) leaves
all four durable collections untouched. -/
theorem C9_no_durable_trace_witness :
    ({ envExpired with sessions := [] } : Env).courses = envExpired.courses ∧
    ({ envExpired with sessions := [] } : Env).enrollments = envExpired.enrollments ∧
    ({ envExpired with sessions := [] } : Env).attendances = envExpired.attendances ∧
    ({ envExpired with sessions := [] } : Env).users = envExpired.users :=
  (C9_rejections_leave_no_durable_trace true 50000 "2026-10-12" "10:00:00" distZero hashId
      "u1" envExpired reqOk).1 400 .invalidSession { envExpired with sessions := [] }
    (by decide)

/-- C10: even when the resolved policy does not require a signature, a
submission that volunteers a non-empty `signatureDataUrl` still has it
structurally validated, and any validation error rejects the submission
with that error; and the validator accepts exactly the strings that start
with `data:image/png;base64,`, are at most 700000 characters, whose
after-comma payload is non-empty pure base64 alphabet, and whose decoded
size lies in `[120, 500000]` bytes. -/
theorem C10_optional_signature_still_validated :
    (∀ (rdef : Bool) (now : Int) (today nowTime : String)
        (dist : JsDec → JsDec → JsDec → JsDec → JsDec) (sigHash : String → String)
        (fuid : String) (env : Env) (req : MarkRequest) (srec : SessionRecord)
        (sessions' : SessionMap) (course : CourseDoc) (pol : AttendancePolicy) (msg : String),
        missingRequiredFields req = [] →
        truthyS req.sessionId = true →
        jsTrim (req.name.getD "") ≠ "" →
        isValidEmail (normalizeEmail (req.email.getD "")) = true →
        getSessionDetails now env.sessions (req.sessionId.getD "") = (some srec, sessions') →
        truthyS srec.courseId = true →
        truthyS srec.institutionId = true →
        courseLookup env srec = some course →
        normalizeAttendancePolicy rdef course.attendancePolicy
          (normalizeDeliveryMode course.deliveryMode) = pol →
        (pol.requireIpAllowlist && pol.ipAllowlist.isEmpty) = false →
        (pol.requireIpAllowlist &&
          ! isIpAllowedByAllowlist (getClientIpFromRequest req) pol.ipAllowlist) = false →
        (pol.requireGeofence && ! hasValidLocationOf req) = false →
        (pol.requireGeofence &&
          (pol.geofence.lat.isNone || pol.geofence.lng.isNone)) = false →
        (pol.requireGeofence && JsDec.lt
          (if pol.geofence.radiusMeters.eqv 0 then 120 else pol.geofence.radiusMeters)
          ((if pol.requireGeofence then
              some (dist ((req.location.bind RawLocation.lat).getD 0)
                ((req.location.bind RawLocation.lng).getD 0)
                (pol.geofence.lat.getD 0) (pol.geofence.lng.getD 0))
            else none).getD 0)) = false →
        pol.requireSignature = false →
        normalizeSignatureDataUrl req.signatureDataUrl ≠ "" →
        validateSignatureDataUrl (normalizeSignatureDataUrl req.signatureDataUrl) = some msg →
        (markAttendance rdef now today nowTime dist sigHash fuid env req).1 =
          .reject 400 (.signatureInvalid msg)) ∧
    (∀ s, validateSignatureDataUrl s = none ↔
      (s ≠ "" ∧ jsStartsWith s "data:image/png;base64," = true ∧ jsLength s ≤ 700000 ∧
        isBase64Alphabet (((jsSplit ',' s)[1]?).getD "") = true ∧
        120 ≤ nodeBase64DecodedLength (((jsSplit ',' s)[1]?).getD "") ∧
        nodeBase64DecodedLength (((jsSplit ',' s)[1]?).getD "") ≤ 500000)) := by
  constructor
  · intro rdef now today nowTime dist sigHash fuid env req srec sessions' course pol msg
      hm hsid hname hmail hsess hcid hiid hfind hpol hnet1 hnet2 hgeo1 hgeo2 hgeo3
      hsigoff hsig0 herr
    have hfind' : courseLookup { env with sessions := sessions' } srec = some course := hfind
    unfold markAttendance
    rw [if_neg (by simp [hm])]
    rw [if_neg (by simp [hsid])]
    rw [if_neg (by simp [submittedNameOf, hname])]
    rw [if_neg (by simp [submittedEmailOf, hmail])]
    simp only [hsess]
    unfold markAttendanceWithSession
    rw [if_neg (by simp [hcid])]
    rw [if_neg (by simp [hiid])]
    simp only [hfind']
    unfold markAttendancePolicyChecks
    simp only [hpol]
    rw [if_neg (by simp [hnet1])]
    rw [if_neg (by simp [hnet2])]
    rw [if_neg (by simp [hgeo1])]
    rw [if_neg (by simp [hgeo2])]
    rw [if_neg (by simp [hgeo3])]
    rw [if_neg (by simp [hsigoff])]
    rw [if_pos hsig0]
    simp only [herr]
  · intro s
    simp only [validateSignatureDataUrl]
    split_ifs with h1 h2 h3 h4 h5
    all_goals try simp_all
    all_goals try omega

set_option maxRecDepth 100000 in
/-- C10 witness: a submission volunteering a too-small PNG payload under a
policy with signatures switched off is rejected with the size error, and
a 160-character base64 payload (120 decoded bytes) passes the validator. -/
theorem C10_optional_signature_witness :
    (markAttendance true 50000 "2026-10-12" "10:00:00" distZero hashId "u1" envOpen
        reqOptionalBadSignature).1 =
      .reject 400 (.signatureInvalid "Invalid signature data size") ∧
    validateSignatureDataUrl goodSignature = none := by
  constructor
  · exact C10_optional_signature_still_validated.1 true 50000 "2026-10-12" "10:00:00"
      distZero hashId "u1" envOpen reqOptionalBadSignature sampleSession
      [("s1", sampleSession)] sampleCourse
      (normalizeAttendancePolicy true sampleCourse.attendancePolicy
        (normalizeDeliveryMode sampleCourse.deliveryMode))
      "Invalid signature data size"
      (by decide) (by decide) (by decide) (by decide) (by decide) (by decide) (by decide)
      (by decide) rfl (by decide) (by decide) (by decide) (by decide) (by decide) (by decide)
      (by decide) (by decide)
  · exact (C10_optional_signature_still_validated.2 goodSignature).mpr (by decide)

/-! ## Sanity checks of the primitive embeddings -/

example : jsSplit '.' "10.0.0.5" = ["10", "0", "0", "5"] := by decide
example : jsSplit '.' "" = [""] := by decide
example : jsSplit '/' "10.0.0.0/24" = ["10.0.0.0", "24"] := by decide
example : jsNumber "24" = some 24 := by decide
example : jsNumber "" = some 0 := by decide
example : jsNumber "1e1" = some 10 := by decide
example : jsNumber "x" = none := by decide
example : ipv4ToInt "10.0.0.5" = some 167772165 := by decide
example : ipv4ToInt "999.0.0.1" = none := by decide
example : isIpv4CidrMatch "10.0.0.5" "10.0.0.0/24" = true := by decide
example : isIpv4CidrMatch "10.0.1.5" "10.0.0.0/24" = false := by decide
example : isValidEmail "a@b.c" = true := by decide
example : isValidEmail "a@b" = false := by decide
example : isValidEmail "a b@c.d" = false := by decide
example : normalizeName "  John   SMITH " = "john smith" := by decide
example : namesMatch "John Smith" "  john  smith" = true := by decide
example : namesMatch "" "someone" = true := by decide
example : validateSignatureDataUrl "" = some "Signature is required" := by decide
example : validateSignatureDataUrl "hello" = some "Invalid signature format" := by decide
example : validateSignatureDataUrl "data:image/png;base64,AAAA" =
    some "Invalid signature data size" := by decide
example : validateSignatureDataUrl "data:image/png;base64,AA!A" =
    some "Invalid signature encoding" := by decide
example : (match (markAttendance true 50000 "2026-10-12" "10:00:00" distZero hashId "u1"
    envOpen reqOk).1 with | .success _ => true | _ => false) = true := by decide
